import Mathlib

/-!
accountsvc: cache-aside repositories and the credential verification flow

A shallow embedding of `achwanyusuf/accountsvc` (Go).

* A Go function returning `(T, error)` is a function returning
  `T × Option GoError`: the value travels with the error, as in Go.
* The cache content, the trace of collaborator calls and the clock are threaded
  explicitly through a `World`.  Cache commands may fail: the world carries a
  schedule of faults, one entry per coming command.
* The relational store is read through an oracle (`Store`), so it does not
  change between two reads; JSON encoding and the cryptographic primitives are
  parameters.
* The repositories `RoleDep`, `AccountDep` and `AccountRoleDep` are one text
  copied three times; they are embedded once, as `domain.Dep` and the functions
  over it.  The file accountrole.go is not among the sources: the method
  `AccountRoleDep.GetSingleByParam` is modelled from the specification, over the
  helpers of accountrole/psql.go and accountrole/redis.go.
-/

set_option autoImplicit false
set_option linter.dupNamespace false

namespace AccountSvc

/-! ## errormsg (external library boundary) -/

namespace errormsg

/-- The `errormsg.Message` record: stable code, HTTP status, Indonesian message
and English translation. -/
structure Message where
  Code : Nat
  StatusCode : Nat
  Message : String
  TranslationEN : String
deriving DecidableEq, Repr

end errormsg

/-- Go `error` values that occur in the service.  `redisNil` is the sentinel
`goredislib.Nil`, `sqlErrNoRows` is `sql.ErrNoRows`, `other` is any further
collaborator error (connection failure, JSON syntax error, ...), and
`wrapNil` / `wrapErr` are the values built by `errormsg.WrapErr` with a nil
cause and with a non-nil cause.  A nil `error` is `none : Option GoError`. -/
inductive GoError where
  | redisNil
  | sqlErrNoRows
  | other (text : String)
  | wrapNil (msg : errormsg.Message) (text : String)
  | wrapErr (msg : errormsg.Message) (cause : GoError) (text : String)
deriving DecidableEq, Repr

namespace errormsg

/-- The call `errormsg.WrapErr(msg, err, text)`.  The library is not part of the
repository; the validators (`Login.Validate`, ...) build their errors as
`WrapErr(msg, nil, text)`, so the result is an error also for a nil cause. -/
def WrapErr (msg : Message) (err : Option GoError) (text : String) : GoError :=
  match err with
  | none => GoError.wrapNil msg text
  | some e => GoError.wrapErr msg e text

end errormsg

/-- The message a wrapped error carries (the outermost wrap), if any. -/
def GoError.message? : GoError → Option errormsg.Message
  | .wrapNil m _ => some m
  | .wrapErr m _ _ => some m
  | _ => none

/-- The stable numeric code of an error (the outermost wrap), if any. -/
def GoError.code? (e : GoError) : Option Nat :=
  e.message?.map (fun m => m.Code)

/-! ## svcerr: error codes and messages (src/model/svcerr/error_code.go) -/

namespace svcerr

def CodeBadRequest : Nat := 40000
def CodePSQLErrorTransaction : Nat := 40001
def CodePSQLErrorCommit : Nat := 40002
def CodePSQLErrorRollback : Nat := 40003
def CodePSQLErrorInsert : Nat := 40004
def CodePSQLErrorUpdate : Nat := 40005
def CodePSQLErrorDelete : Nat := 40006
def CodePSQLErrorGet : Nat := 40007
def CodeInvalidEmptyName : Nat := 40008
def CodeInvalidEmptyEmail : Nat := 40009
def CodeInvalidEmailFormat : Nat := 40010
def CodeInvalidEmptyPassword : Nat := 40011
def CodeInvalidMinimumPassword : Nat := 40012
def CodeInvalidMaximumPassword : Nat := 40013
def CodeInvalidPasswordConfirmation : Nat := 40014
def CodeInvalidPasswordNotMatch : Nat := 40015
def CodeInvalidScope : Nat := 40016
def CodeInvalidClientIDClientSecret : Nat := 40017
def CodeNotAuthorized : Nat := 401000
def CodeNotFound : Nat := 404000

/-- The constants `http.StatusBadRequest`, `http.StatusUnauthorized`,
`http.StatusNotFound`. -/
def StatusBadRequest : Nat := 400
def StatusUnauthorized : Nat := 401
def StatusNotFound : Nat := 404

/-- The entries of the map `ErrMsg`, in source order. -/
def ErrMsgEntries : List (Nat × errormsg.Message) :=
  [ (CodePSQLErrorCommit,
      ⟨CodePSQLErrorCommit, StatusBadRequest, "Terdapat kesalahan dalam pembuatan data!",
        "There was an error in creating the data "⟩),
    (CodePSQLErrorRollback,
      ⟨CodePSQLErrorRollback, StatusBadRequest, "Terdapat kesalahan dalam pembuatan data!",
        "There was an error in creating the data "⟩),
    (CodePSQLErrorInsert,
      ⟨CodePSQLErrorInsert, StatusBadRequest, "Terdapat kesalahan dalam pembuatan data!",
        "There was an error in creating the data "⟩),
    (CodePSQLErrorUpdate,
      ⟨CodePSQLErrorUpdate, StatusBadRequest, "Terdapat kesalahan dalam mengubah data!",
        "There was an error in updating the data "⟩),
    (CodePSQLErrorDelete,
      ⟨CodePSQLErrorDelete, StatusBadRequest, "Terdapat kesalahan dalam menghapus data!",
        "There was an error in deleting the data "⟩),
    (CodePSQLErrorGet,
      ⟨CodePSQLErrorGet, StatusBadRequest, "Terdapat kesalahan dalam pengambilan data!",
        "There was an error in get data!"⟩),
    (CodeNotFound,
      ⟨CodeNotFound, StatusNotFound, "Data tidak ditemukan!", "Data not found!"⟩),
    (CodeNotAuthorized,
      ⟨CodeNotAuthorized, StatusUnauthorized, "Akses tidak diijinkan! Silakan login kembali!",
        "Access not authorized! Please login again!"⟩),
    (CodeBadRequest,
      ⟨CodeBadRequest, StatusBadRequest, "Kesalahan input. Silakan cek kembali masukan anda!",
        "Invalid input. Please validate your input!"⟩),
    (CodePSQLErrorTransaction,
      ⟨CodePSQLErrorTransaction, StatusBadRequest, "Terdapat kesalahan dalam pembuatan data!",
        "There was an error in creating the data "⟩),
    (CodeInvalidEmptyName,
      ⟨CodeInvalidEmptyName, StatusBadRequest, "Nama tidak boleh kosong!",
        "Name should not be empty!"⟩),
    (CodeInvalidEmptyEmail,
      ⟨CodeInvalidEmptyEmail, StatusBadRequest, "Email tidak boleh kosong!",
        "Email should not be empty!"⟩),
    (CodeInvalidEmailFormat,
      ⟨CodeInvalidEmailFormat, StatusBadRequest, "Format email salah!", "Wrong email format!"⟩),
    (CodeInvalidEmptyPassword,
      ⟨CodeInvalidEmptyPassword, StatusBadRequest, "Kata sandi tidak boleh kosong!",
        "Password should not be empty!"⟩),
    (CodeInvalidMinimumPassword,
      ⟨CodeInvalidMinimumPassword, StatusBadRequest, "Kata sandi minimal 5 karakter!",
        "Minimum password is 5 character!"⟩),
    (CodeInvalidMaximumPassword,
      ⟨CodeInvalidMaximumPassword, StatusBadRequest, "Kata sandi maksimal 8 karakter!",
        "Maximum password is 8 character!"⟩),
    (CodeInvalidPasswordConfirmation,
      ⟨CodeInvalidPasswordConfirmation, StatusBadRequest,
        "Kata sandi dan konfirmasi kata sandi tidak sama!",
        "Password and password confirmation doesn't match!"⟩),
    (CodeInvalidPasswordNotMatch,
      ⟨CodeInvalidPasswordNotMatch, StatusUnauthorized, "Kata sandi salah!", "Wrong password!"⟩),
    (CodeInvalidScope,
      ⟨CodeInvalidScope, StatusBadRequest, "Scope tidak valid", "Invalid scope!"⟩),
    (CodeInvalidClientIDClientSecret,
      ⟨CodeInvalidClientIDClientSecret, StatusBadRequest, "Client ID/Client Secret harus diisi!",
        "Client ID/Client Secret should not be empty"⟩) ]

/-- The map lookup `ErrMsg[code]`; a missing key gives the zero `Message`. -/
def ErrMsg (code : Nat) : errormsg.Message :=
  match ErrMsgEntries.lookup code with
  | some m => m
  | none => ⟨0, 0, "", ""⟩

def AccountSVCPSQLErrorTransaction : errormsg.Message := ErrMsg CodePSQLErrorTransaction
def AccountSVCPSQLErrorCommit : errormsg.Message := ErrMsg CodePSQLErrorCommit
def AccountSVCPSQLErrorRollback : errormsg.Message := ErrMsg CodePSQLErrorRollback
def AccountSVCPSQLErrorInsert : errormsg.Message := ErrMsg CodePSQLErrorInsert
def AccountSVCPSQLErrorUpdate : errormsg.Message := ErrMsg CodePSQLErrorUpdate
def AccountSVCPSQLErrorDelete : errormsg.Message := ErrMsg CodePSQLErrorDelete
def AccountSVCPSQLErrorGet : errormsg.Message := ErrMsg CodePSQLErrorGet
def AccountSVCNotAuthorized : errormsg.Message := ErrMsg CodeNotAuthorized
def AccountSVCNotFound : errormsg.Message := ErrMsg CodeNotFound
def AccountSVCBadRequest : errormsg.Message := ErrMsg CodeBadRequest
def AccountSVCInvalidEmptyName : errormsg.Message := ErrMsg CodeInvalidEmptyName
def AccountSVCInvalidEmptyEmail : errormsg.Message := ErrMsg CodeInvalidEmptyEmail
def AccountSVCInvalidEmailFormat : errormsg.Message := ErrMsg CodeInvalidEmailFormat
def AccountSVCInvalidEmptyPassword : errormsg.Message := ErrMsg CodeInvalidEmptyPassword
def AccountSVCInvalidMinimumPassword : errormsg.Message := ErrMsg CodeInvalidMinimumPassword
def AccountSVCInvalidMaximumPassword : errormsg.Message := ErrMsg CodeInvalidMaximumPassword
def AccountSVCInvalidPasswordConfirmation : errormsg.Message :=
  ErrMsg CodeInvalidPasswordConfirmation
def AccountSVCInvalidPasswordNotMatch : errormsg.Message := ErrMsg CodeInvalidPasswordNotMatch
def AccountSVCInvalidScope : errormsg.Message := ErrMsg CodeInvalidScope
def AccountSVCInvalidClientIDClientSecret : errormsg.Message :=
  ErrMsg CodeInvalidClientIDClientSecret

end svcerr

/-! ## Values shared by the model package -/

/-- The type `null.String` (volatiletech/null): a string with a validity flag. -/
structure NullString where
  String : String
  Valid : Bool
deriving DecidableEq, Repr

/-- The type `null.Int64`: an int64 with a validity flag. -/
structure NullInt64 where
  Int64 : Int
  Valid : Bool
deriving DecidableEq, Repr

/-- The type `null.Int`: an int with a validity flag. -/
structure NullInt where
  Int : Int
  Valid : Bool
deriving DecidableEq, Repr

/-- The type `null.Time`; instants are nanoseconds since the Unix epoch. -/
structure NullTime where
  Time : Int
  Valid : Bool
deriving DecidableEq, Repr

/-- The constructor `null.NewString(s, valid)`. -/
def NewString (s : String) (valid : Bool) : NullString := ⟨s, valid⟩

/-- The constructor `null.NewInt64(i, valid)`. -/
def NewInt64 (i : Int) (valid : Bool) : NullInt64 := ⟨i, valid⟩

/-- The constructor `null.NewInt(i, valid)`. -/
def NewInt (i : Int) (valid : Bool) : NullInt := ⟨i, valid⟩

/-- Two's-complement wrap-around of a mathematical integer into int64. -/
def wrap64 (x : Int) : Int := (x + 2 ^ 63) % 2 ^ 64 - 2 ^ 63

/-- An argument bound to a `?` placeholder of a query clause. -/
inductive SqlArg where
  | int (v : Int)
  | str (s : String)
deriving DecidableEq, Repr

/-- The query modifiers (`qm.Where`, `qm.OrderBy`, `qm.Offset`, `qm.Limit`) the
service builds. -/
inductive QueryMod where
  | Where (clause : String) (arg : SqlArg)
  | OrderBy (clause : String)
  | Offset (n : Int)
  | Limit (n : Int)
deriving DecidableEq, Repr

/-- The call `strings.Split(s, ",")` on the characters of `s`; `cur` holds the
current piece, reversed. -/
def splitCommaAux : List Char → List Char → List String
  | [], cur => [String.mk cur.reverse]
  | c :: cs, cur =>
    if c = ',' then String.mk cur.reverse :: splitCommaAux cs []
    else splitCommaAux cs (c :: cur)

/-- The call `strings.Split(s, ",")`. -/
def splitComma (s : String) : List String := splitCommaAux s.data []

/-- The substitution of the single `%s` verb of a format, on characters. -/
def sprintfAux : List Char → List Char → List Char
  | [], _ => []
  | [c], _ => [c]
  | c :: d :: rest, arg =>
    if c = '%' ∧ d = 's' then arg ++ rest else c :: sprintfAux (d :: rest) arg

/-- The call `fmt.Sprintf(format, arg)` for a format with one `%s` verb. -/
def Sprintf (format : String) (arg : String) : String :=
  String.mk (sprintfAux format.data arg.data)

namespace model

def GetSingleByParamAccountKey : String := "gspAccount:%s"
def GetByParamAccountKey : String := "gpAccount:%s"
def GetByParamAccountPgKey : String := "gppgAccount:%s"
def MustRevalidate : String := "must-revalidate"
def GetSingleByParamRoleKey : String := "gspRole:%s"
def GetByParamRoleKey : String := "gpRole:%s"
def GetByParamRolePgKey : String := "gppgRole:%s"
def SuperAdminScope : String := "sup"
def StoreScope : String := "sto"
def CustomerScope : String := "cus"
def GetSingleByParamAccountRoleKey : String := "gspAccountRole:%s"
def GetByParamAccountRoleKey : String := "gpAccountRole:%s"
def GetByParamAccountRolePgKey : String := "gppgAccountRole:%s"

/-- The variable `DefaultRedisExpiration = 5 * time.Minute`, in nanoseconds. -/
def DefaultRedisExpiration : Int := 5 * 60 * 1000000000

def TokenTypeBearer : String := "Bearer"

/-- The struct `model.Pagination` (src/model/base.go). -/
structure Pagination where
  CurrentPage : Int
  CurrentElements : Int
  TotalPages : Int
  TotalElements : Int
  SortBy : String
deriving DecidableEq, Repr

/-- The zero value `model.Pagination{}`. -/
def Pagination.zero : Pagination := ⟨0, 0, 0, 0, ""⟩

end model

/-! ## Regular expressions (the fragment `regexp` needs for `RegExpEmail`) -/

/-- A regular expression over characters; a class is a list of inclusive
ranges. -/
inductive Regex where
  | empty
  | eps
  | cls (ranges : List (Char × Char))
  | seq (a b : Regex)
  | alt (a b : Regex)
  | star (a : Regex)
deriving DecidableEq, Repr

namespace Regex

/-- Does the class contain the character? -/
def inClass (ranges : List (Char × Char)) (c : Char) : Bool :=
  ranges.any (fun r => r.1.toNat ≤ c.toNat && c.toNat ≤ r.2.toNat)

/-- Does the expression match the empty string? -/
def nullable : Regex → Bool
  | empty => false
  | eps => true
  | cls _ => false
  | seq a b => nullable a && nullable b
  | alt a b => nullable a || nullable b
  | star _ => true

/-- The Brzozowski derivative of the expression by one character. -/
def deriv : Regex → Char → Regex
  | empty, _ => empty
  | eps, _ => empty
  | cls rs, c => if inClass rs c then eps else empty
  | seq a b, c =>
    if nullable a then alt (seq (deriv a c) b) (deriv b c) else seq (deriv a c) b
  | alt a b, c => alt (deriv a c) (deriv b c)
  | star a, c => seq (deriv a c) (star a)

/-- Does the expression match the whole character sequence? -/
def matchesChars : Regex → List Char → Bool
  | r, [] => nullable r
  | r, c :: cs => matchesChars (deriv r c) cs

/-- The repetition `r+`. -/
def plus (r : Regex) : Regex := seq r (star r)

/-- At most `n` repetitions of `r`. -/
def upTo : Nat → Regex → Regex
  | 0, _ => eps
  | n + 1, r => alt eps (seq r (upTo n r))

/-- The bounded repetition `r{lo,hi}`. -/
def rep : Nat → Nat → Regex → Regex
  | 0, hi, r => upTo hi r
  | lo + 1, hi, r => seq r (rep lo (hi - 1) r)

/-- The call `rg.MatchString(s)` for a pattern anchored with `^` and `$`. -/
def MatchString (r : Regex) (s : String) : Bool := matchesChars r s.data

end Regex

namespace model

/-- The pattern `RegExpEmail`,
`^[a-zA-Z0-9._+\-]+@[a-zA-Z0-9]+[a-zA-Z0-9.\-]+\.[a-zA-Z]{2,10}$`, compiled. -/
def RegExpEmail : Regex :=
  let alnum : List (Char × Char) := [('a', 'z'), ('A', 'Z'), ('0', '9')]
  Regex.seq (Regex.plus (Regex.cls (alnum ++ [('.', '.'), ('_', '_'), ('+', '+'), ('-', '-')])))
    (Regex.seq (Regex.cls [('@', '@')])
      (Regex.seq (Regex.plus (Regex.cls alnum))
        (Regex.seq (Regex.plus (Regex.cls (alnum ++ [('.', '.'), ('-', '-')])))
          (Regex.seq (Regex.cls [('.', '.')])
            (Regex.rep 2 10 (Regex.cls [('a', 'z'), ('A', 'Z')]))))))

/-- The struct `model.Login`. -/
structure Login where
  Email : String
  Password : String
  ClientID : String
  ClientSecret : String
deriving DecidableEq, Repr

/-- The struct `model.Auth`; `Exp` is a pointer to an instant. -/
structure Auth where
  AccessToken : String
  TokenType : String
  Exp : Option Int
  Scope : String
deriving DecidableEq, Repr

/-- The zero value of `model.Auth`. -/
def Auth.zero : Auth := ⟨"", "", none, ""⟩

/-- The method `Login.Validate` (src/model/account.go); `len` counts bytes. -/
def Login.Validate (l : Login) : Option GoError :=
  if l.Email = "" then
    some (errormsg.WrapErr svcerr.AccountSVCInvalidEmptyEmail none "invalid empty name")
  else if !RegExpEmail.MatchString l.Email then
    some (errormsg.WrapErr svcerr.AccountSVCInvalidEmailFormat none "invalid email format")
  else if l.Password = "" then
    some (errormsg.WrapErr svcerr.AccountSVCInvalidEmptyPassword none "invalid empty password")
  else if l.Password.utf8ByteSize < 5 then
    some (errormsg.WrapErr svcerr.AccountSVCInvalidMinimumPassword none "invalid minimum password")
  else if l.Password.utf8ByteSize > 8 then
    some (errormsg.WrapErr svcerr.AccountSVCInvalidMaximumPassword none "invalid maximum password")
  else none

/-- The struct `model.GetAccountByParam`. -/
structure GetAccountByParam where
  ID : NullInt64
  Email : NullString
  Name : NullString
deriving DecidableEq, Repr

/-- The method `GetAccountByParam.GetQuery`. -/
def GetAccountByParam.GetQuery (g : GetAccountByParam) : List QueryMod :=
  let res : List QueryMod := []
  let res := if g.ID.Valid then res ++ [QueryMod.Where "id=?" (.int g.ID.Int64)] else res
  let res := if g.Email.Valid then res ++ [QueryMod.Where "email=?" (.str g.Email.String)] else res
  let res := if g.Name.Valid then res ++ [QueryMod.Where "name=?" (.str g.Name.String)] else res
  res

/-- The struct `model.GetRoleByParam`. -/
structure GetRoleByParam where
  ID : NullInt64
  Scope : NullString
  Cid : NullString
deriving DecidableEq, Repr

/-- The method `GetRoleByParam.GetQuery`. -/
def GetRoleByParam.GetQuery (g : GetRoleByParam) : List QueryMod :=
  let res : List QueryMod := []
  let res := if g.ID.Valid then res ++ [QueryMod.Where "id=?" (.int g.ID.Int64)] else res
  let res := if g.Scope.Valid then res ++ [QueryMod.Where "scope=?" (.str g.Scope.String)] else res
  let res := if g.Cid.Valid then res ++ [QueryMod.Where "cid=?" (.str g.Cid.String)] else res
  res

/-- The struct `model.GetAccountRoleByParam`. -/
structure GetAccountRoleByParam where
  ID : NullInt64
  AccountID : NullInt64
  RoleID : NullInt64
deriving DecidableEq, Repr

/-- The method `GetAccountRoleByParam.GetQuery`. -/
def GetAccountRoleByParam.GetQuery (g : GetAccountRoleByParam) : List QueryMod :=
  let res : List QueryMod := []
  let res :=
    if g.AccountID.Valid then res ++ [QueryMod.Where "account_id=?" (.int g.AccountID.Int64)]
    else res
  let res :=
    if g.RoleID.Valid then res ++ [QueryMod.Where "role_id=?" (.int g.RoleID.Int64)] else res
  res

/-- The list filters `GetAccountsByParam`, `GetRolesByParam` and
`GetAccountRolesByParam`: the embedded single filter plus `OrderBy`, `Limit`
and `Page`. -/
structure ListParam (P : Type) where
  base : P
  OrderBy : NullString
  Limit : Int
  Page : Int
deriving DecidableEq, Repr

/-- The method `GetAccountsByParam.GetQuery`. -/
def GetAccountsByParam.GetQuery (g : ListParam GetAccountByParam) : List QueryMod :=
  let res : List QueryMod := []
  let res := if g.base.ID.Valid then res ++ [QueryMod.Where "id=?" (.int g.base.ID.Int64)] else res
  let res :=
    if g.base.Email.Valid then
      res ++ [QueryMod.Where "email like ?" (.str (g.base.Email.String ++ "%"))]
    else res
  let res :=
    if g.base.Name.Valid then
      res ++ [QueryMod.Where "name like ?" (.str (g.base.Name.String ++ "%"))]
    else res
  if g.OrderBy.Valid then res ++ (splitComma g.OrderBy.String).map QueryMod.OrderBy else res

/-- The method `GetRolesByParam.GetQuery`. -/
def GetRolesByParam.GetQuery (g : ListParam GetRoleByParam) : List QueryMod :=
  let res : List QueryMod := []
  let res := if g.base.ID.Valid then res ++ [QueryMod.Where "id=?" (.int g.base.ID.Int64)] else res
  let res :=
    if g.base.Scope.Valid then
      res ++ [QueryMod.Where "scope like ?" (.str (g.base.Scope.String ++ "%"))]
    else res
  let res :=
    if g.base.Cid.Valid then
      res ++ [QueryMod.Where "cid like ?" (.str (g.base.Cid.String ++ "%"))]
    else res
  if g.OrderBy.Valid then res ++ (splitComma g.OrderBy.String).map QueryMod.OrderBy else res

/-- The method `GetAccountRolesByParam.GetQuery`. -/
def GetAccountRolesByParam.GetQuery (g : ListParam GetAccountRoleByParam) : List QueryMod :=
  let res : List QueryMod := []
  let res :=
    if g.base.AccountID.Valid then
      res ++ [QueryMod.Where "account_id=?" (.int g.base.AccountID.Int64)]
    else res
  let res :=
    if g.base.RoleID.Valid then res ++ [QueryMod.Where "role_id=?" (.int g.base.RoleID.Int64)]
    else res
  if g.OrderBy.Valid then res ++ (splitComma g.OrderBy.String).map QueryMod.OrderBy else res

end model

/-! ## Further validators and the key formats (src/model) -/

/-- The call `strings.Split(s, sep)` for a one-character separator, on the
characters of `s`; `cur` holds the current piece, reversed. -/
def splitCharAux (sep : Char) : List Char → List Char → List String
  | [], cur => [String.mk cur.reverse]
  | c :: cs, cur =>
    if c = sep then String.mk cur.reverse :: splitCharAux sep cs []
    else splitCharAux sep cs (c :: cur)

/-- The call `strings.Split(s, sep)` for a one-character separator. -/
def Split (s : String) (sep : Char) : List String := splitCharAux sep s.data []

namespace model

/-- The nine key formats: single-get, list-get and list-pagination for Account,
Role and AccountRole. -/
def KeyFormats : List String :=
  [ GetSingleByParamAccountKey, GetByParamAccountKey, GetByParamAccountPgKey,
    GetSingleByParamRoleKey, GetByParamRoleKey, GetByParamRolePgKey,
    GetSingleByParamAccountRoleKey, GetByParamAccountRoleKey, GetByParamAccountRolePgKey ]

/-- The struct `model.Register`. -/
structure Register where
  Name : String
  Email : String
  Password : String
  ConfirmPassword : String
  CreatedBy : Int
deriving DecidableEq, Repr

/-- The method `Register.Validate` (src/model/account.go); `len` counts bytes. -/
def Register.Validate (r : Register) : Option GoError :=
  if r.Name = "" then
    some (errormsg.WrapErr svcerr.AccountSVCInvalidEmptyName none "invalid empty name")
  else if r.Password = "" then
    some (errormsg.WrapErr svcerr.AccountSVCInvalidEmptyPassword none "invalid empty password")
  else if r.Password.utf8ByteSize < 5 then
    some (errormsg.WrapErr svcerr.AccountSVCInvalidMinimumPassword none "invalid minimum password")
  else if r.Password.utf8ByteSize > 8 then
    some (errormsg.WrapErr svcerr.AccountSVCInvalidMaximumPassword none "invalid maximum password")
  else if r.Password ≠ r.ConfirmPassword then
    some (errormsg.WrapErr svcerr.AccountSVCInvalidPasswordConfirmation none
      "invalid password confirmation")
  else none

/-- The struct `model.UpdateAccountData`. -/
structure UpdateAccountData where
  Name : String
  UpdateBy : Int
deriving DecidableEq, Repr

/-- The method `UpdateAccountData.Validate`. -/
def UpdateAccountData.Validate (u : UpdateAccountData) : Option GoError :=
  if u.Name = "" then
    some (errormsg.WrapErr svcerr.AccountSVCInvalidEmptyName none "invalid empty name")
  else none

/-- The struct `model.UpdatePasswordData`. -/
structure UpdatePasswordData where
  Password : String
  ConfirmPassword : String
  UpdateBy : Int
deriving DecidableEq, Repr

/-- The method `UpdatePasswordData.IsValid`; `len` counts bytes. -/
def UpdatePasswordData.IsValid (u : UpdatePasswordData) : Option GoError :=
  if u.Password = "" then
    some (errormsg.WrapErr svcerr.AccountSVCInvalidEmptyPassword none "invalid empty password")
  else if u.Password.utf8ByteSize < 5 then
    some (errormsg.WrapErr svcerr.AccountSVCInvalidMinimumPassword none "invalid minimum password")
  else if u.Password.utf8ByteSize > 8 then
    some (errormsg.WrapErr svcerr.AccountSVCInvalidMaximumPassword none "invalid maximum password")
  else if u.Password ≠ u.ConfirmPassword then
    some (errormsg.WrapErr svcerr.AccountSVCInvalidPasswordConfirmation none
      "invalid password confirmation")
  else none

end model

namespace svcerr

/-- The twenty code constants of svcerr, in declaration order. -/
def Codes : List Nat :=
  [ CodeBadRequest, CodePSQLErrorTransaction, CodePSQLErrorCommit, CodePSQLErrorRollback,
    CodePSQLErrorInsert, CodePSQLErrorUpdate, CodePSQLErrorDelete, CodePSQLErrorGet,
    CodeInvalidEmptyName, CodeInvalidEmptyEmail, CodeInvalidEmailFormat,
    CodeInvalidEmptyPassword, CodeInvalidMinimumPassword, CodeInvalidMaximumPassword,
    CodeInvalidPasswordConfirmation, CodeInvalidPasswordNotMatch, CodeInvalidScope,
    CodeInvalidClientIDClientSecret, CodeNotAuthorized, CodeNotFound ]

/-- The twenty error values `AccountSVC*`, in declaration order. -/
def Values : List errormsg.Message :=
  [ AccountSVCPSQLErrorTransaction, AccountSVCPSQLErrorCommit, AccountSVCPSQLErrorRollback,
    AccountSVCPSQLErrorInsert, AccountSVCPSQLErrorUpdate, AccountSVCPSQLErrorDelete,
    AccountSVCPSQLErrorGet, AccountSVCNotAuthorized, AccountSVCNotFound, AccountSVCBadRequest,
    AccountSVCInvalidEmptyName, AccountSVCInvalidEmptyEmail, AccountSVCInvalidEmailFormat,
    AccountSVCInvalidEmptyPassword, AccountSVCInvalidMinimumPassword,
    AccountSVCInvalidMaximumPassword, AccountSVCInvalidPasswordConfirmation,
    AccountSVCInvalidPasswordNotMatch, AccountSVCInvalidScope,
    AccountSVCInvalidClientIDClientSecret ]

end svcerr

/-! ## psqlmodel: the persisted rows -/

namespace psqlmodel

/-- Modelled from the spec: the generated package `psqlmodel` is not among the
sources.  The row of an Account carries identity, name, email, hashed password
and the audit block (spec §3); field names are those the use cases read. -/
structure Account where
  ID : Int
  Name : String
  Email : String
  Password : String
  CreatedBy : Int
  CreatedAt : Int
  UpdatedBy : Int
  UpdatedAt : Int
  DeletedBy : NullInt
  DeletedAt : NullTime
deriving DecidableEq, Repr

/-- Modelled from the spec: the row of a Role carries identity, scope, client id,
encrypted client secret and the audit block (spec §3). -/
structure Role where
  ID : Int
  Scope : String
  Cid : String
  Sec : String
  CreatedBy : Int
  CreatedAt : Int
  UpdatedBy : Int
  UpdatedAt : Int
  DeletedBy : NullInt
  DeletedAt : NullTime
deriving DecidableEq, Repr

/-- Modelled from the spec: the row of an AccountRole carries identity, account
reference, role reference and the audit block (spec §3). -/
structure AccountRole where
  ID : Int
  AccountID : Int
  RoleID : Int
  CreatedBy : Int
  CreatedAt : Int
  UpdatedBy : Int
  UpdatedAt : Int
  DeletedBy : NullInt
  DeletedAt : NullTime
deriving DecidableEq, Repr

/-- The zero value `psqlmodel.Account{}`. -/
def Account.zero : Account := ⟨0, "", "", "", 0, 0, 0, 0, ⟨0, false⟩, ⟨0, false⟩⟩

/-- The zero value `psqlmodel.Role{}`. -/
def Role.zero : Role := ⟨0, "", "", "", 0, 0, 0, 0, ⟨0, false⟩, ⟨0, false⟩⟩

/-- The zero value `psqlmodel.AccountRole{}`. -/
def AccountRole.zero : AccountRole := ⟨0, 0, 0, 0, 0, 0, 0, ⟨0, false⟩, ⟨0, false⟩⟩

/-- The assignment `account.DeletedBy = v` on a Role row. -/
def Role.withDeletedBy (r : Role) (v : NullInt) : Role := { r with DeletedBy := v }

/-- The assignment `account.DeletedBy = v` on an Account row. -/
def Account.withDeletedBy (r : Account) (v : NullInt) : Account := { r with DeletedBy := v }

/-- The assignment `account.DeletedBy = v` on an AccountRole row. -/
def AccountRole.withDeletedBy (r : AccountRole) (v : NullInt) : AccountRole :=
  { r with DeletedBy := v }

end psqlmodel

/-! ## The world: cache contents, scheduled cache faults, call trace -/

/-- A collaborator call observed from outside the repository. -/
inductive Event where
  | redisGet (key : String)
  | redisDel (key : String)
  | redisSet (key : String) (value : String) (ttl : Int)
  | dbOne (table : String) (q : List QueryMod)
  | dbCount (table : String) (q : List QueryMod)
  | dbAll (table : String) (q : List QueryMod)
deriving DecidableEq, Repr

/-- A cache entry: the stored blob and the time-to-live it was set with. -/
structure CacheEntry where
  value : String
  ttl : Int
deriving DecidableEq, Repr

/-- The state threaded through every operation.  `redis` is the content of the
cache, `faults` schedules the outcome of the coming cache commands (one entry
per command, `some e` makes the command fail with `e`, an exhausted schedule
means no fault), `trace` records the collaborator calls in order, `now` is the
reading of the clock. -/
structure World where
  redis : List (String × CacheEntry)
  faults : List (Option GoError)
  trace : List Event
  now : Int
deriving DecidableEq, Repr

/-- The fault scheduled for the next cache command. -/
def World.nextFault (w : World) : Option GoError :=
  match w.faults with
  | [] => none
  | f :: _ => f

/-- The world after a cache command has been issued: its fault entry is consumed
and the call is recorded. -/
def World.issued (w : World) (e : Event) : World :=
  { w with faults := w.faults.tail, trace := w.trace ++ [e] }

/-- The world after a store query has been issued. -/
def World.queried (w : World) (e : Event) : World :=
  { w with trace := w.trace ++ [e] }

/-- Is the event a store access? -/
def Event.isStore : Event → Bool
  | .dbOne _ _ => true
  | .dbCount _ _ => true
  | .dbAll _ _ => true
  | _ => false

/-- Is the event a cache read? -/
def Event.isCacheRead : Event → Bool
  | .redisGet _ => true
  | _ => false

/-- The number of store accesses recorded in a trace. -/
def storeAccesses (t : List Event) : Nat := (t.filter Event.isStore).length

/-- The number of cache reads recorded in a trace. -/
def cacheReads (t : List Event) : Nat := (t.filter Event.isCacheRead).length

namespace Redis

/-- The command `Redis.Get(ctx, key).Result()`: the value, or `goredislib.Nil`
when the key is absent, or the scheduled fault. -/
def Get (w : World) (key : String) : (String × Option GoError) × World :=
  let w1 := w.issued (Event.redisGet key)
  match w.nextFault with
  | some e => (("", some e), w1)
  | none =>
    match w.redis.lookup key with
    | some ent => ((ent.value, none), w1)
    | none => (("", some GoError.redisNil), w1)

/-- The command `Redis.Del(ctx, key).Result()`. -/
def Del (w : World) (key : String) : Option GoError × World :=
  let w1 := w.issued (Event.redisDel key)
  match w.nextFault with
  | some e => (some e, w1)
  | none => (none, { w1 with redis := w1.redis.filter (fun kv => kv.1 != key) })

/-- The command `Redis.Set(ctx, key, data, expTime).Result()`. -/
def Set (w : World) (key : String) (data : String) (expTime : Int) : Option GoError × World :=
  let w1 := w.issued (Event.redisSet key data expTime)
  match w.nextFault with
  | some e => (some e, w1)
  | none =>
    (none, { w1 with redis := (key, ⟨data, expTime⟩) :: w1.redis.filter (fun kv => kv.1 != key) })

end Redis

/-! ## The cache-aside repository (src/domain/{role,account,accountrole}) -/

namespace domain

/-- The struct `Conf` of a repository. -/
structure Conf where
  DefaultPageLimit : Int
  RedisExpirationTime : Int
deriving DecidableEq, Repr

/-- The read side of the relational store for one entity: the outcome of
`One`, `Count` and `All` for a list of query modifiers. -/
structure Store (E : Type) where
  One : List QueryMod → Except GoError E
  Count : List QueryMod → Except GoError Int
  All : List QueryMod → Except GoError (List E)

/-- The calls `json.Marshal(&v)` and `json.Unmarshal(data, &v)` for one type;
`Unmarshal` gives the value left in the target together with the error. -/
structure Codec (T : Type) where
  Marshal : T → Except GoError String
  Unmarshal : String → T × Option GoError

/-- One repository (`RoleDep`, `AccountDep`, `AccountRoleDep`).  The three are
copies of one text that differ in the entity name only, so they are embedded
once over the entity type `E` and its filter type `P`; what differs per entity
(key formats, table, filter queries, codecs, store) is a field. -/
structure Dep (E P : Type) where
  Conf : Conf
  table : String
  singleKey : String
  listKey : String
  pgKey : String
  zero : E
  DB : Store E
  json : Codec E
  jsonSlice : Codec (List E)
  jsonPg : Codec model.Pagination
  marshalParam : P → Except GoError String
  marshalListParam : model.ListParam P → Except GoError String
  GetQuery : P → List QueryMod
  GetQueryList : model.ListParam P → List QueryMod

variable {E P : Type}

/-- The method `getSingleByParamRedis` (redis.go). -/
def getSingleByParamRedis (r : Dep E P) (w : World) (key : String) :
    (E × Option GoError) × World :=
  let (got, w1) := Redis.Get w key
  match got.2 with
  | some err => ((r.zero, some err), w1)
  | none =>
    let (res, err) := r.json.Unmarshal got.1
    match err with
    | some err => ((res, some err), w1)
    | none => ((res, none), w1)

/-- The method `setRedis` (redis.go). -/
def setRedis (r : Dep E P) (w : World) (key : String) (data : String) :
    Option GoError × World :=
  let expTime :=
    if r.Conf.RedisExpirationTime = 0 then model.DefaultRedisExpiration
    else r.Conf.RedisExpirationTime
  let (err, w1) := Redis.Del w key
  match err with
  | some err => (some err, w1)
  | none => Redis.Set w1 key data expTime

/-- The method `getByParamRedis` (redis.go). -/
def getByParamRedis (r : Dep E P) (w : World) (key : String) :
    (List E × Option GoError) × World :=
  let (got, w1) := Redis.Get w key
  match got.2 with
  | some err => (([], some err), w1)
  | none =>
    let (res, err) := r.jsonSlice.Unmarshal got.1
    match err with
    | some err => ((res, some err), w1)
    | none => ((res, none), w1)

/-- The method `getByParamPaginationRedis` (redis.go). -/
def getByParamPaginationRedis (r : Dep E P) (w : World) (key : String) :
    (model.Pagination × Option GoError) × World :=
  let (got, w1) := Redis.Get w key
  match got.2 with
  | some err => ((model.Pagination.zero, some err), w1)
  | none =>
    let (res, err) := r.jsonPg.Unmarshal got.1
    match err with
    | some err => ((res, some err), w1)
    | none => ((res, none), w1)

/-- The method `getSingleByParamPSQL` (psql.go). -/
def getSingleByParamPSQL (r : Dep E P) (w : World) (param : P) :
    (E × Option GoError) × World :=
  let qr := r.GetQuery param
  let w1 := w.queried (Event.dbOne r.table qr)
  match r.DB.One qr with
  | .error err =>
    if err = GoError.sqlErrNoRows then
      ((r.zero, some (errormsg.WrapErr svcerr.AccountSVCBadRequest (some err) "error get accounts")),
        w1)
    else
      ((r.zero, some (errormsg.WrapErr svcerr.AccountSVCBadRequest (some err) "error get accounts")),
        w1)
  | .ok account => ((account, none), w1)

/-- The method `GetSingleByParam` (role.go, account.go). -/
def GetSingleByParam (r : Dep E P) (w : World) (cacheControl : String) (param : P) :
    (E × Option GoError) × World :=
  match r.marshalParam param with
  | .error err =>
    ((r.zero, some (errormsg.WrapErr svcerr.AccountSVCBadRequest (some err) "error marshal param")),
      w)
  | .ok str =>
    let key := Sprintf r.singleKey str
    if cacheControl ≠ model.MustRevalidate then
      let (cached, w1) := getSingleByParamRedis r w key
      match cached.2 with
      | some err =>
        if err = GoError.redisNil then
          let (res, w2) := getSingleByParamPSQL r w1 param
          match res.2 with
          | none =>
            match r.json.Marshal res.1 with
            | .error err =>
              ((res.1, some (errormsg.WrapErr svcerr.AccountSVCBadRequest (some err)
                "error get psql")), w2)
            | .ok dataStr =>
              let (err, w3) := setRedis r w2 key dataStr
              match err with
              | some err =>
                ((res.1, some (errormsg.WrapErr svcerr.AccountSVCBadRequest (some err)
                  "error set redis")), w3)
              | none => ((res.1, none), w3)
          | some err => ((res.1, some err), w2)
        else
          ((cached.1, some (errormsg.WrapErr svcerr.AccountSVCBadRequest (some err)
            "error marshal param")), w1)
      | none => ((cached.1, none), w1)
    else
      let (res, w1) := getSingleByParamPSQL r w param
      match res.2 with
      | none =>
        match r.json.Marshal res.1 with
        | .error err =>
          ((res.1, some (errormsg.WrapErr svcerr.AccountSVCBadRequest (some err)
            "error get psql")), w1)
        | .ok dataStr =>
          let (err, w2) := setRedis r w1 key dataStr
          match err with
          | some err =>
            ((res.1, some (errormsg.WrapErr svcerr.AccountSVCBadRequest (some err)
              "error set redis")), w2)
          | none => ((res.1, none), w2)
      | some _ => ((res.1, none), w1)

/-- The result of a Go call that may end in a runtime panic. -/
inductive Outcome (α : Type) where
  | ret (a : α)
  | panic (msg : String)
deriving DecidableEq, Repr

/-- The method `getByParamPSQL` (psql.go).  `Limit` and `Page` are defaulted in
place before the query is built; int64 arithmetic wraps; the division panics
on a zero divisor. -/
def getByParamPSQL (r : Dep E P) (w : World) (param : model.ListParam P) :
    Outcome (List E × model.Pagination × Option GoError) × World :=
  let totalPages : Int := 1
  let param := if param.Limit = 0 then { param with Limit := r.Conf.DefaultPageLimit } else param
  let param := if param.Page = 0 then { param with Page := 1 } else param
  let qr := r.GetQueryList param
  let w1 := w.queried (Event.dbCount r.table qr)
  match r.DB.Count qr with
  | .error err =>
    (.ret ([], model.Pagination.zero,
      some (errormsg.WrapErr svcerr.AccountSVCBadRequest (some err) "error count data")), w1)
  | .ok count =>
    let qr := qr ++ [QueryMod.Offset (wrap64 ((param.Page - 1) * param.Limit))]
    let qr := qr ++ [QueryMod.Limit param.Limit]
    let w2 := w1.queried (Event.dbAll r.table qr)
    match r.DB.All qr with
    | .error err =>
      if err = GoError.sqlErrNoRows then
        (.ret ([], model.Pagination.zero,
          some (errormsg.WrapErr svcerr.AccountSVCBadRequest (some err) "error get accounts")), w2)
      else
        (.ret ([], model.Pagination.zero,
          some (errormsg.WrapErr svcerr.AccountSVCBadRequest (some err) "error get accounts")), w2)
    | .ok accounts =>
      if 0 < count then
        if param.Limit = 0 then
          (.panic "runtime error: integer divide by zero", w2)
        else
          let totalPages := wrap64 (wrap64 (Int.tdiv count param.Limit) + 1)
          (.ret (accounts,
            { CurrentPage := param.Page, CurrentElements := accounts.length,
              TotalElements := count, TotalPages := totalPages,
              SortBy := param.OrderBy.String }, none), w2)
      else
        (.ret (accounts,
          { CurrentPage := param.Page, CurrentElements := accounts.length,
            TotalElements := count, TotalPages := totalPages,
            SortBy := param.OrderBy.String }, none), w2)

/-- The method `GetByParam` (role.go, account.go). -/
def GetByParam (r : Dep E P) (w : World) (cacheControl : String) (param : model.ListParam P) :
    Outcome (List E × model.Pagination × Option GoError) × World :=
  match r.marshalListParam param with
  | .error err =>
    (.ret ([], model.Pagination.zero,
      some (errormsg.WrapErr svcerr.AccountSVCBadRequest (some err) "error marshal param")), w)
  | .ok str =>
    let key := Sprintf r.listKey str
    let keyPg := Sprintf r.pgKey str
    if cacheControl ≠ model.MustRevalidate then
      let (res, w1) := getByParamRedis r w key
      let (pg, w2) := getByParamPaginationRedis r w1 keyPg
      let err1 := res.2
      let err2 := pg.2
      if err1 ≠ none ∨ err2 ≠ none then
        if err1 = some GoError.redisNil ∨ err2 = some GoError.redisNil then
          match getByParamPSQL r w2 param with
          | (.panic msg, w3) => (.panic msg, w3)
          | (.ret (res, pg, some err), w3) => (.ret (res, pg, some err), w3)
          | (.ret (res, pg, none), w3) =>
            match r.jsonSlice.Marshal res with
            | .error err =>
              (.ret (res, pg, some (errormsg.WrapErr svcerr.AccountSVCBadRequest (some err)
                "error get psql")), w3)
            | .ok dataStr =>
              let (err, w4) := setRedis r w3 key dataStr
              match err with
              | some err =>
                (.ret (res, pg, some (errormsg.WrapErr svcerr.AccountSVCBadRequest (some err)
                  "error set redis")), w4)
              | none =>
                match r.jsonPg.Marshal pg with
                | .error err =>
                  (.ret (res, pg, some (errormsg.WrapErr svcerr.AccountSVCBadRequest (some err)
                    "error get psql")), w4)
                | .ok dataStr =>
                  let (err, w5) := setRedis r w4 key dataStr
                  match err with
                  | some err =>
                    (.ret (res, pg, some (errormsg.WrapErr svcerr.AccountSVCBadRequest (some err)
                      "error set redis")), w5)
                  | none => (.ret (res, pg, none), w5)
        else
          (.ret (res.1, pg.1,
            some (errormsg.WrapErr svcerr.AccountSVCBadRequest none "error marshal param")), w2)
      else
        (.ret (res.1, pg.1, none), w2)
    else
      match getByParamPSQL r w param with
      | (.panic msg, w1) => (.panic msg, w1)
      | (.ret (res, pg, some err), w1) => (.ret (res, pg, some err), w1)
      | (.ret (res, pg, none), w1) =>
        match r.jsonSlice.Marshal res with
        | .error err =>
          (.ret (res, pg, some (errormsg.WrapErr svcerr.AccountSVCBadRequest (some err)
            "error get psql")), w1)
        | .ok dataStr =>
          let (err, w2) := setRedis r w1 key dataStr
          match err with
          | some err =>
            (.ret (res, pg, some (errormsg.WrapErr svcerr.AccountSVCBadRequest (some err)
              "error set redis")), w2)
          | none =>
            match r.jsonPg.Marshal pg with
            | .error err =>
              (.ret (res, pg, some (errormsg.WrapErr svcerr.AccountSVCBadRequest (some err)
                "error get psql")), w2)
            | .ok dataStr =>
              let (err, w3) := setRedis r w2 key dataStr
              match err with
              | some err =>
                (.ret (res, pg, some (errormsg.WrapErr svcerr.AccountSVCBadRequest (some err)
                  "error set redis")), w3)
              | none => (.ret (res, pg, none), w3)

/-- The list filter after `getByParamPSQL` has defaulted `Limit` and `Page`. -/
def defaulted (r : Dep E P) (param : model.ListParam P) : model.ListParam P :=
  let param := if param.Limit = 0 then { param with Limit := r.Conf.DefaultPageLimit } else param
  if param.Page = 0 then { param with Page := 1 } else param

/-- The effective limit of a list request: the requested one, or the configured
default page limit when none (zero) is requested. -/
def effectiveLimit (r : Dep E P) (param : model.ListParam P) : Int :=
  if param.Limit = 0 then r.Conf.DefaultPageLimit else param.Limit

/-- The modifiers of the count query `getByParamPSQL` issues. -/
def countQuery (r : Dep E P) (param : model.ListParam P) : List QueryMod :=
  r.GetQueryList (defaulted r param)

/-- The modifiers of the row query `getByParamPSQL` issues. -/
def rowQuery (r : Dep E P) (param : model.ListParam P) : List QueryMod :=
  countQuery r param
    ++ [QueryMod.Offset (wrap64 (((defaulted r param).Page - 1) * (defaulted r param).Limit))]
    ++ [QueryMod.Limit (defaulted r param).Limit]

/-! ### The write path (psql.go) -/

/-- An observable step of a write operation: the commands on the connection and
on the transaction, and the warnings handed to the logger. -/
inductive TxEvent (E : Type) where
  | begin
  | insert (row : E)
  | update (row : E)
  | delete (row : E) (hard : Bool)
  | rollback
  | commit
  | warn (err : GoError)
deriving DecidableEq, Repr

/-- The write side of the relational store for one entity: the outcome of
`DB.BeginTx`, of the statements `Insert`, `Update` and `Delete` executed on the
transaction, and of `tx.Rollback` and `tx.Commit`. -/
structure TxStore (E : Type) where
  BeginTx : Option GoError
  Insert : E → Option GoError
  Update : E → Option GoError
  Delete : E → Bool → Option GoError
  Rollback : Option GoError
  Commit : Option GoError

/-- The method `insertPSQL` (psql.go): the returned error and the steps taken. -/
def insertPSQL (db : TxStore E) (data : E) : Option GoError × List (TxEvent E) :=
  match db.BeginTx with
  | some err =>
    (some (errormsg.WrapErr svcerr.AccountSVCPSQLErrorTransaction (some err)
      "error begin transaction"), [TxEvent.begin])
  | none =>
    match db.Insert data with
    | some err =>
      match db.Rollback with
      | some _ =>
        (some (errormsg.WrapErr svcerr.AccountSVCPSQLErrorInsert (some err) "error insert"),
          [TxEvent.begin, TxEvent.insert data, TxEvent.rollback,
            TxEvent.warn (errormsg.WrapErr svcerr.AccountSVCPSQLErrorRollback (some err)
              "error rollback")])
      | none =>
        (some (errormsg.WrapErr svcerr.AccountSVCPSQLErrorInsert (some err) "error insert"),
          [TxEvent.begin, TxEvent.insert data, TxEvent.rollback])
    | none =>
      match db.Commit with
      | some err =>
        (some (errormsg.WrapErr svcerr.AccountSVCBadRequest (some err) "error commit"),
          [TxEvent.begin, TxEvent.insert data, TxEvent.commit])
      | none => (none, [TxEvent.begin, TxEvent.insert data, TxEvent.commit])

/-- The method `updatePSQL` (psql.go). -/
def updatePSQL (db : TxStore E) (account : E) : Option GoError × List (TxEvent E) :=
  match db.BeginTx with
  | some err =>
    (some (errormsg.WrapErr svcerr.AccountSVCPSQLErrorTransaction (some err)
      "error begin transaction"), [TxEvent.begin])
  | none =>
    match db.Update account with
    | some err =>
      match db.Rollback with
      | some _ =>
        (some (errormsg.WrapErr svcerr.AccountSVCPSQLErrorUpdate (some err) "error update"),
          [TxEvent.begin, TxEvent.update account, TxEvent.rollback,
            TxEvent.warn (errormsg.WrapErr svcerr.AccountSVCPSQLErrorRollback (some err)
              "error rollback")])
      | none =>
        (some (errormsg.WrapErr svcerr.AccountSVCPSQLErrorUpdate (some err) "error update"),
          [TxEvent.begin, TxEvent.update account, TxEvent.rollback])
    | none =>
      match db.Commit with
      | some err =>
        (some (errormsg.WrapErr svcerr.AccountSVCBadRequest (some err) "error commit"),
          [TxEvent.begin, TxEvent.update account, TxEvent.commit])
      | none => (none, [TxEvent.begin, TxEvent.update account, TxEvent.commit])

/-- The method `deletePSQL` (psql.go).  `withDeletedBy` is the assignment
`account.DeletedBy = null.NewInt(int(id), true)` on the entity. -/
def deletePSQL (db : TxStore E) (withDeletedBy : E → NullInt → E) (account : E) (id : Int)
    (isHardDelete : Bool) : Option GoError × List (TxEvent E) :=
  match db.BeginTx with
  | some err =>
    (some (errormsg.WrapErr svcerr.AccountSVCPSQLErrorTransaction (some err)
      "error begin transaction"), [TxEvent.begin])
  | none =>
    match db.Delete account isHardDelete with
    | some err =>
      match db.Rollback with
      | some _ =>
        (some (errormsg.WrapErr svcerr.AccountSVCPSQLErrorUpdate (some err) "error delete"),
          [TxEvent.begin, TxEvent.delete account isHardDelete, TxEvent.rollback,
            TxEvent.warn (errormsg.WrapErr svcerr.AccountSVCPSQLErrorRollback (some err)
              "error rollback")])
      | none =>
        (some (errormsg.WrapErr svcerr.AccountSVCPSQLErrorUpdate (some err) "error delete"),
          [TxEvent.begin, TxEvent.delete account isHardDelete, TxEvent.rollback])
    | none =>
      if !isHardDelete then
        let account1 := withDeletedBy account (NewInt id true)
        match db.Update account1 with
        | some err =>
          match db.Rollback with
          | some _ =>
            (some (errormsg.WrapErr svcerr.AccountSVCPSQLErrorUpdate (some err) "error update"),
              [TxEvent.begin, TxEvent.delete account isHardDelete, TxEvent.update account1,
                TxEvent.rollback,
                TxEvent.warn (errormsg.WrapErr svcerr.AccountSVCPSQLErrorRollback (some err)
                  "error rollback")])
          | none =>
            (some (errormsg.WrapErr svcerr.AccountSVCPSQLErrorUpdate (some err) "error update"),
              [TxEvent.begin, TxEvent.delete account isHardDelete, TxEvent.update account1,
                TxEvent.rollback])
        | none =>
          match db.Commit with
          | some err =>
            (some (errormsg.WrapErr svcerr.AccountSVCBadRequest (some err) "error commit"),
              [TxEvent.begin, TxEvent.delete account isHardDelete, TxEvent.update account1,
                TxEvent.commit])
          | none =>
            (none,
              [TxEvent.begin, TxEvent.delete account isHardDelete, TxEvent.update account1,
                TxEvent.commit])
      else
        match db.Commit with
        | some err =>
          (some (errormsg.WrapErr svcerr.AccountSVCBadRequest (some err) "error commit"),
            [TxEvent.begin, TxEvent.delete account isHardDelete, TxEvent.commit])
        | none => (none, [TxEvent.begin, TxEvent.delete account isHardDelete, TxEvent.commit])

/-- Is the step the end of the transaction (`tx.Rollback` or `tx.Commit`)? -/
def TxEvent.isEnd : TxEvent E → Bool
  | .rollback => true
  | .commit => true
  | _ => false

namespace role

/-- The constructor `role.New`: the Role repository with its key formats. -/
def New (conf : Conf) (db : Store psqlmodel.Role) (json : Codec psqlmodel.Role)
    (jsonSlice : Codec (List psqlmodel.Role)) (jsonPg : Codec model.Pagination)
    (marshalParam : model.GetRoleByParam → Except GoError String)
    (marshalListParam : model.ListParam model.GetRoleByParam → Except GoError String) :
    Dep psqlmodel.Role model.GetRoleByParam :=
  { Conf := conf, table := "role", singleKey := model.GetSingleByParamRoleKey,
    listKey := model.GetByParamRoleKey, pgKey := model.GetByParamRolePgKey,
    zero := psqlmodel.Role.zero, DB := db, json := json, jsonSlice := jsonSlice, jsonPg := jsonPg,
    marshalParam := marshalParam, marshalListParam := marshalListParam,
    GetQuery := model.GetRoleByParam.GetQuery, GetQueryList := model.GetRolesByParam.GetQuery }

end role

namespace account

/-- The constructor `account.New`: the Account repository with its key formats. -/
def New (conf : Conf) (db : Store psqlmodel.Account) (json : Codec psqlmodel.Account)
    (jsonSlice : Codec (List psqlmodel.Account)) (jsonPg : Codec model.Pagination)
    (marshalParam : model.GetAccountByParam → Except GoError String)
    (marshalListParam : model.ListParam model.GetAccountByParam → Except GoError String) :
    Dep psqlmodel.Account model.GetAccountByParam :=
  { Conf := conf, table := "account", singleKey := model.GetSingleByParamAccountKey,
    listKey := model.GetByParamAccountKey, pgKey := model.GetByParamAccountPgKey,
    zero := psqlmodel.Account.zero, DB := db, json := json, jsonSlice := jsonSlice,
    jsonPg := jsonPg, marshalParam := marshalParam, marshalListParam := marshalListParam,
    GetQuery := model.GetAccountByParam.GetQuery,
    GetQueryList := model.GetAccountsByParam.GetQuery }

end account

namespace accountrole

/-- The constructor `accountrole.New`: the AccountRole repository with its key
formats. -/
def New (conf : Conf) (db : Store psqlmodel.AccountRole) (json : Codec psqlmodel.AccountRole)
    (jsonSlice : Codec (List psqlmodel.AccountRole)) (jsonPg : Codec model.Pagination)
    (marshalParam : model.GetAccountRoleByParam → Except GoError String)
    (marshalListParam : model.ListParam model.GetAccountRoleByParam → Except GoError String) :
    Dep psqlmodel.AccountRole model.GetAccountRoleByParam :=
  { Conf := conf, table := "account_role", singleKey := model.GetSingleByParamAccountRoleKey,
    listKey := model.GetByParamAccountRoleKey, pgKey := model.GetByParamAccountRolePgKey,
    zero := psqlmodel.AccountRole.zero, DB := db, json := json, jsonSlice := jsonSlice,
    jsonPg := jsonPg, marshalParam := marshalParam, marshalListParam := marshalListParam,
    GetQuery := model.GetAccountRoleByParam.GetQuery,
    GetQueryList := model.GetAccountRolesByParam.GetQuery }

/-- Modelled from the spec: the method `AccountRoleDep.GetSingleByParam`, whose
file accountrole.go is not among the sources.  It follows spec §4.1 over the
helpers of accountrole/psql.go and accountrole/redis.go.  Under must-revalidate
the store is queried directly; a store lookup that fails (zero rows included) is
a failure of the call; after a successful lookup the cache entry of the key is
refreshed, and a refresh failure is reported together with the fetched value.
Under any other directive the cache is read first: a hit is returned without
store access, the not-found sentinel falls through to the store and populates
the cache on success, any other cache error is a failure without falling
through.  Errors are wrapped as in the repositories of Role and Account. -/
def GetSingleByParam (r : Dep psqlmodel.AccountRole model.GetAccountRoleByParam) (w : World)
    (cacheControl : String) (param : model.GetAccountRoleByParam) :
    (psqlmodel.AccountRole × Option GoError) × World :=
  match r.marshalParam param with
  | .error err =>
    ((r.zero, some (errormsg.WrapErr svcerr.AccountSVCBadRequest (some err) "error marshal param")),
      w)
  | .ok str =>
    let key := Sprintf r.singleKey str
    if cacheControl = model.MustRevalidate then
      let (res, w1) := getSingleByParamPSQL r w param
      match res.2 with
      | some err => ((res.1, some err), w1)
      | none =>
        match r.json.Marshal res.1 with
        | .error err =>
          ((res.1, some (errormsg.WrapErr svcerr.AccountSVCBadRequest (some err)
            "error get psql")), w1)
        | .ok dataStr =>
          let (err, w2) := setRedis r w1 key dataStr
          match err with
          | some err =>
            ((res.1, some (errormsg.WrapErr svcerr.AccountSVCBadRequest (some err)
              "error set redis")), w2)
          | none => ((res.1, none), w2)
    else
      let (cached, w1) := getSingleByParamRedis r w key
      match cached.2 with
      | none => ((cached.1, none), w1)
      | some err =>
        if err = GoError.redisNil then
          let (res, w2) := getSingleByParamPSQL r w1 param
          match res.2 with
          | some err => ((res.1, some err), w2)
          | none =>
            match r.json.Marshal res.1 with
            | .error err =>
              ((res.1, some (errormsg.WrapErr svcerr.AccountSVCBadRequest (some err)
                "error get psql")), w2)
            | .ok dataStr =>
              let (err, w3) := setRedis r w2 key dataStr
              match err with
              | some err =>
                ((res.1, some (errormsg.WrapErr svcerr.AccountSVCBadRequest (some err)
                  "error set redis")), w3)
              | none => ((res.1, none), w3)
        else
          ((cached.1, some (errormsg.WrapErr svcerr.AccountSVCBadRequest (some err)
            "error marshal param")), w1)

end accountrole

end domain

/-! ## The Account use case: credential verification (src/usecase/account) -/

namespace usecase

/-- The struct `Conf` of the Account use case; `TokenTimeout` in nanoseconds. -/
structure Conf where
  TokenTimeout : Int
  TokenSecret : String
  AESSecret : String
deriving DecidableEq, Repr

/-- The claims `Oauth2` puts into the token. -/
structure Claims where
  id : Int
  username : String
  exp : Int
  scope : String
deriving DecidableEq, Repr

/-- The primitive services the flow calls: `hash.CompareAES(stored, key, plain)`,
`hash.Compare(hashed, plain)` and the HS512 signer `token.SignedString(secret)`
applied to the claims.  They are external and enter as parameters. -/
structure Primitives where
  CompareAES : String → String → String → Bool
  Compare : String → String → Option GoError
  SignedString : Claims → String → Except GoError String

/-- The struct `AccountDep` of the use case with its three repositories. -/
structure AccountDep where
  conf : Conf
  prim : Primitives
  account : domain.Dep psqlmodel.Account model.GetAccountByParam
  role : domain.Dep psqlmodel.Role model.GetRoleByParam
  accountRole : domain.Dep psqlmodel.AccountRole model.GetAccountRoleByParam

/-- The method `Time.Unix()`: whole seconds since the epoch. -/
def Unix (t : Int) : Int := Int.fdiv t 1000000000

/-- The method `AccountDep.Oauth2` (src/usecase/account/account.go). -/
def Oauth2 (a : AccountDep) (w : World) (v : model.Login) :
    (model.Auth × Option GoError) × World :=
  let auth := model.Auth.zero
  match v.Validate with
  | some err => ((auth, some err), w)
  | none =>
    let (role, w1) := domain.GetSingleByParam a.role w ""
      { ID := ⟨0, false⟩, Scope := ⟨"", false⟩, Cid := NewString v.ClientID true }
    match role.2 with
    | some err =>
      ((auth, some (errormsg.WrapErr svcerr.AccountSVCNotAuthorized (some err) "role not found")),
        w1)
    | none =>
      if !a.prim.CompareAES role.1.Sec a.conf.AESSecret v.ClientSecret then
        ((auth, some (errormsg.WrapErr svcerr.AccountSVCNotAuthorized none
          "invalid client id/client secret")), w1)
      else
        let (account, w2) := domain.GetSingleByParam a.account w1 model.MustRevalidate
          { ID := ⟨0, false⟩, Email := NewString v.Email true, Name := ⟨"", false⟩ }
        match account.2 with
        | some err =>
          ((auth, some (errormsg.WrapErr svcerr.AccountSVCNotAuthorized (some err)
            "account not found")), w2)
        | none =>
          let (accountRole, w3) := domain.accountrole.GetSingleByParam a.accountRole w2
            model.MustRevalidate
            { ID := ⟨0, false⟩, AccountID := NewInt64 account.1.ID true,
              RoleID := NewInt64 role.1.ID true }
          match accountRole.2 with
          | some err =>
            ((auth, some (errormsg.WrapErr svcerr.AccountSVCNotAuthorized (some err)
              "invalid client id/client secret")), w3)
          | none =>
            match a.prim.Compare account.1.Password v.Password with
            | some err =>
              ((auth, some (errormsg.WrapErr svcerr.AccountSVCInvalidPasswordNotMatch (some err)
                "password not match")), w3)
            | none =>
              let expired := w3.now + a.conf.TokenTimeout
              let claims : Claims :=
                { id := account.1.ID, username := account.1.Email, exp := Unix expired,
                  scope := role.1.Scope }
              match a.prim.SignedString claims a.conf.TokenSecret with
              | .error err =>
                ((auth, some (errormsg.WrapErr svcerr.AccountSVCInvalidPasswordNotMatch (some err)
                  "invalid token")), w3)
              | .ok t =>
                (({ AccessToken := t, Exp := some expired, TokenType := model.TokenTypeBearer,
                    Scope := role.1.Scope }, none), w3)

/-- The Role resolution of `Oauth2` (stage 2): the repository call with the
filter by client id. -/
def roleStage (a : AccountDep) (w : World) (v : model.Login) :
    (psqlmodel.Role × Option GoError) × World :=
  domain.GetSingleByParam a.role w ""
    { ID := ⟨0, false⟩, Scope := ⟨"", false⟩, Cid := NewString v.ClientID true }

/-- The Account resolution of `Oauth2` (stage 4), issued after the Role one. -/
def accountStage (a : AccountDep) (w : World) (v : model.Login) :
    (psqlmodel.Account × Option GoError) × World :=
  domain.GetSingleByParam a.account (roleStage a w v).2 model.MustRevalidate
    { ID := ⟨0, false⟩, Email := NewString v.Email true, Name := ⟨"", false⟩ }

/-- The AccountRole resolution of `Oauth2` (stage 5), issued after the Account
one with the identities the two earlier stages resolved. -/
def membershipStage (a : AccountDep) (w : World) (v : model.Login) :
    (psqlmodel.AccountRole × Option GoError) × World :=
  domain.accountrole.GetSingleByParam a.accountRole (accountStage a w v).2 model.MustRevalidate
    { ID := ⟨0, false⟩, AccountID := NewInt64 (accountStage a w v).1.1.ID true,
      RoleID := NewInt64 (roleStage a w v).1.1.ID true }

end usecase

namespace usecase

/-- The method `AccountDep.DeleteByID` of the use case: `vid` selects the
account, `id` is handed to the repository as the deleting actor.  `tx` is the
write side of the Account store. -/
def DeleteByID (a : AccountDep) (tx : domain.TxStore psqlmodel.Account) (w : World) (id : Int)
    (isHardDelete : Bool) (vid : Int) :
    (Option GoError × List (domain.TxEvent psqlmodel.Account)) × World :=
  let (account, w1) := domain.GetSingleByParam a.account w model.MustRevalidate
    { ID := NewInt64 vid true, Email := ⟨"", false⟩, Name := ⟨"", false⟩ }
  match account.2 with
  | some err => ((some err, []), w1)
  | none => (domain.deletePSQL tx psqlmodel.Account.withDeletedBy account.1 id isHardDelete, w1)

end usecase

/-! ## The Account handlers (src/handler/rest/account) -/

namespace handler

/-- The values the token middleware leaves in the request context:
`ctx.Value("id")` and `ctx.Value("scope")`. -/
structure Caller where
  id : Int
  scope : String
deriving DecidableEq, Repr

/-- What the handlers read from a request: the outcome of
`strconv.ParseInt(ctx.Param("id"), 10, 64)`, the outcome of
`io.ReadAll(ctx.Request.Body)` and the caller. -/
structure Request where
  idParam : Except GoError Int
  body : Except GoError String
  caller : Caller

/-- The external pieces of the handlers: the library message `errormsg.Error400`,
`json.Unmarshal` into `model.UpdateAccountData` (whose `UpdateBy` is not a
JSON field) and `base64.StdEncoding.DecodeString` (the bytes decoded and the
error). -/
structure AccountDep where
  Error400 : errormsg.Message
  unmarshalUpdate : String → Except GoError model.UpdateAccountData
  DecodeString : String → String × Option GoError

/-- What a handler does with a request: it answers with an error, or it calls
the use case with the given arguments. -/
inductive Step (α : Type) where
  | respond (err : GoError)
  | call (args : α)
deriving DecidableEq, Repr

/-- The handler `UpdateByID` up to its call `a.account.UpdateByID(ctx, id,
updateData)`: the arguments are the target id and the update data. -/
def UpdateByID (a : AccountDep) (req : Request) : Step (Int × model.UpdateAccountData) :=
  match req.idParam with
  | .error err => .respond (errormsg.WrapErr a.Error400 (some err) "error get id")
  | .ok id =>
    match req.body with
    | .error err =>
      .respond (errormsg.WrapErr svcerr.AccountSVCBadRequest (some err) "error read body")
    | .ok body =>
      match a.unmarshalUpdate body with
      | .error err =>
        .respond (errormsg.WrapErr svcerr.AccountSVCBadRequest (some err) "error unmarshal body")
      | .ok updateData =>
        let updateData := { updateData with UpdateBy := req.caller.id }
        let scope := req.caller.scope
        let id := if scope ≠ model.SuperAdminScope then req.caller.id else id
        .call (id, updateData)

/-- The handler `DeleteByID` up to its call `a.account.DeleteByID(ctx,
ctx.Value("id"), false, id)`: the arguments are the actor, the hard-delete flag
and the target id. -/
def DeleteByID (a : AccountDep) (req : Request) : Step (Int × Bool × Int) :=
  match req.idParam with
  | .error err => .respond (errormsg.WrapErr a.Error400 (some err) "error get id")
  | .ok id =>
    let scope := req.caller.scope
    let id := if scope ≠ model.SuperAdminScope then req.caller.id else id
    .call (req.caller.id, false, id)

/-- The method `decodeClient`: the pair it returns and the errors it hands to
the logger. -/
def decodeClient (a : AccountDep) (auth : String) : (String × String) × List GoError :=
  let client := Split auth ' '
  match client with
  | _ :: encoded :: _ =>
    let (rawDecodedText, err) := a.DecodeString encoded
    let warned := match err with
      | some e => [e]
      | none => []
    let secret := Split rawDecodedText ':'
    match secret with
    | s0 :: s1 :: _ => ((s0, s1), warned)
    | _ => (("", ""), warned)
  | _ => (("", ""), [])

end handler

/-! ## A sample deployment: in-memory store, stand-in serialization -/

namespace sample

/-- The column and the comparison a query clause names. -/
def clauses : List (String × String × Bool) :=
  [ ("id=?", "id", false), ("scope=?", "scope", false), ("cid=?", "cid", false),
    ("email=?", "email", false), ("name=?", "name", false),
    ("account_id=?", "account_id", false), ("role_id=?", "role_id", false),
    ("scope like ?", "scope", true), ("cid like ?", "cid", true),
    ("email like ?", "email", true), ("name like ?", "name", true) ]

/-- Does a row, seen through its column accessor, satisfy the modifier?  A
`like` argument is a prefix followed by `%`. -/
def holds (col : String → Option SqlArg) : QueryMod → Bool
  | .Where clause arg =>
    match clauses.lookup clause with
    | some (c, false) => col c == some arg
    | some (c, true) =>
      match col c, arg with
      | some (.str v), .str pat => pat.data.dropLast.isPrefixOf v.data
      | _, _ => false
    | none => false
  | _ => true

/-- The window `Offset`/`Limit` modifiers select. -/
def window {E : Type} (q : List QueryMod) (rows : List E) : List E :=
  q.foldl (fun acc m =>
    match m with
    | .Offset n => acc.drop n.toNat
    | .Limit n => acc.take n.toNat
    | _ => acc) rows

/-- A store that answers queries from a list of rows. -/
def memStore {E : Type} (rows : List E) (col : E → String → Option SqlArg) : domain.Store E :=
  { One := fun q =>
      match rows.find? (fun r => q.all (holds (col r))) with
      | some r => .ok r
      | none => .error GoError.sqlErrNoRows
    Count := fun q => .ok (rows.filter (fun r => q.all (holds (col r)))).length
    All := fun q => .ok (window q (rows.filter (fun r => q.all (holds (col r))))) }

/-- A codec given by a rendering and the values it can decode. -/
def tableCodec {T : Type} (render : T → String) (known : List T) (zero : T) : domain.Codec T :=
  { Marshal := fun t => .ok (render t)
    Unmarshal := fun s =>
      match known.find? (fun t => render t == s) with
      | some t => (t, none)
      | none => (zero, some (GoError.other "json: cannot unmarshal")) }

def showInt (i : Int) : String := toString i

def showNullString (n : NullString) : String := if n.Valid then n.String else "null"

def showNullInt64 (n : NullInt64) : String := if n.Valid then showInt n.Int64 else "null"

def showRole (r : psqlmodel.Role) : String :=
  "id=" ++ showInt r.ID ++ "&scope=" ++ r.Scope ++ "&cid=" ++ r.Cid ++ "&sec=" ++ r.Sec

def showAccount (r : psqlmodel.Account) : String :=
  "id=" ++ showInt r.ID ++ "&name=" ++ r.Name ++ "&email=" ++ r.Email ++ "&password=" ++ r.Password

def showAccountRole (r : psqlmodel.AccountRole) : String :=
  "id=" ++ showInt r.ID ++ "&account_id=" ++ showInt r.AccountID ++ "&role_id=" ++ showInt r.RoleID

def showPagination (p : model.Pagination) : String :=
  "current_page=" ++ showInt p.CurrentPage ++ "&current_elements=" ++ showInt p.CurrentElements
    ++ "&total_pages=" ++ showInt p.TotalPages ++ "&total_elements=" ++ showInt p.TotalElements
    ++ "&sort_by=" ++ p.SortBy

def showList {T : Type} (render : T → String) (l : List T) : String :=
  "[" ++ String.intercalate ";" (l.map render) ++ "]"

def showListParam {P : Type} (render : P → String) (p : model.ListParam P) : String :=
  render p.base ++ "&order_by=" ++ showNullString p.OrderBy ++ "&limit=" ++ showInt p.Limit
    ++ "&page=" ++ showInt p.Page

def showRoleParam (g : model.GetRoleByParam) : String :=
  "id=" ++ showNullInt64 g.ID ++ "&scope=" ++ showNullString g.Scope ++ "&cid="
    ++ showNullString g.Cid

def showAccountParam (g : model.GetAccountByParam) : String :=
  "id=" ++ showNullInt64 g.ID ++ "&email=" ++ showNullString g.Email ++ "&name="
    ++ showNullString g.Name

def showAccountRoleParam (g : model.GetAccountRoleByParam) : String :=
  "id=" ++ showNullInt64 g.ID ++ "&account_id=" ++ showNullInt64 g.AccountID ++ "&role_id="
    ++ showNullInt64 g.RoleID

def roleColumn (r : psqlmodel.Role) (c : String) : Option SqlArg :=
  if c = "id" then some (.int r.ID) else if c = "scope" then some (.str r.Scope)
  else if c = "cid" then some (.str r.Cid) else none

def accountColumn (r : psqlmodel.Account) (c : String) : Option SqlArg :=
  if c = "id" then some (.int r.ID) else if c = "email" then some (.str r.Email)
  else if c = "name" then some (.str r.Name) else none

def accountRoleColumn (r : psqlmodel.AccountRole) (c : String) : Option SqlArg :=
  if c = "id" then some (.int r.ID) else if c = "account_id" then some (.int r.AccountID)
  else if c = "role_id" then some (.int r.RoleID) else none

def roleAdmin : psqlmodel.Role :=
  ⟨7, "admin", "c1", "enc:k:s3cr3t", 1, 0, 1, 0, ⟨0, false⟩, ⟨0, false⟩⟩

/-- An earlier generation of `roleAdmin`, with another scope. -/
def roleOld : psqlmodel.Role :=
  ⟨7, "sup", "c1", "enc:k:s3cr3t", 1, 0, 1, 0, ⟨0, false⟩, ⟨0, false⟩⟩

def accountAnn : psqlmodel.Account :=
  ⟨3, "Ann", "ann@example.com", "hash:pass1", 1, 0, 1, 0, ⟨0, false⟩, ⟨0, false⟩⟩

def membership : psqlmodel.AccountRole := ⟨1, 3, 7, 1, 0, 1, 0, ⟨0, false⟩, ⟨0, false⟩⟩

/-- The pagination block of the one-row Role list under the default limit. -/
def pgOne : model.Pagination := ⟨1, 1, 1, 1, ""⟩

/-- A Role repository over the given rows, page limit 10, default expiration. -/
def roleDep (rows : List psqlmodel.Role) : domain.Dep psqlmodel.Role model.GetRoleByParam :=
  domain.role.New ⟨10, 0⟩ (memStore rows roleColumn)
    (tableCodec showRole [roleAdmin, roleOld] psqlmodel.Role.zero)
    (tableCodec (showList showRole) [[], [roleAdmin]] [])
    (tableCodec showPagination [pgOne] model.Pagination.zero)
    (fun p => .ok (showRoleParam p)) (fun p => .ok (showListParam showRoleParam p))

/-- An Account repository over the given rows. -/
def accountDep (rows : List psqlmodel.Account) :
    domain.Dep psqlmodel.Account model.GetAccountByParam :=
  domain.account.New ⟨10, 0⟩ (memStore rows accountColumn)
    (tableCodec showAccount [accountAnn] psqlmodel.Account.zero)
    (tableCodec (showList showAccount) [[], [accountAnn]] [])
    (tableCodec showPagination [pgOne] model.Pagination.zero)
    (fun p => .ok (showAccountParam p)) (fun p => .ok (showListParam showAccountParam p))

/-- An AccountRole repository over the given rows. -/
def accountRoleDep (rows : List psqlmodel.AccountRole) :
    domain.Dep psqlmodel.AccountRole model.GetAccountRoleByParam :=
  domain.accountrole.New ⟨10, 0⟩ (memStore rows accountRoleColumn)
    (tableCodec showAccountRole [membership] psqlmodel.AccountRole.zero)
    (tableCodec (showList showAccountRole) [[], [membership]] [])
    (tableCodec showPagination [pgOne] model.Pagination.zero)
    (fun p => .ok (showAccountRoleParam p)) (fun p => .ok (showListParam showAccountRoleParam p))

/-- Stand-ins for the primitive services: a stored secret is `enc:key:plain`, a
password hash is `hash:plain`, a token lists its claims. -/
def prim : usecase.Primitives :=
  { CompareAES := fun stored key plain => stored == "enc:" ++ key ++ ":" ++ plain
    Compare := fun hashed plain =>
      if hashed = "hash:" ++ plain then none
      else some (GoError.other "hashedPassword is not the hash of the given password")
    SignedString := fun c secret =>
      .ok ("jwt:" ++ secret ++ ":" ++ showInt c.id ++ ":" ++ c.username ++ ":" ++ showInt c.exp
        ++ ":" ++ c.scope) }

/-- The Account use case over the given tables; token lifetime one hour. -/
def deps (roles : List psqlmodel.Role) (accounts : List psqlmodel.Account)
    (memberships : List psqlmodel.AccountRole) : usecase.AccountDep :=
  { conf := ⟨3600000000000, "ts", "k"⟩, prim := prim, account := accountDep accounts,
    role := roleDep roles, accountRole := accountRoleDep memberships }

/-- A world with an empty cache, no scheduled fault and an empty trace. -/
def cold : World := ⟨[], [], [], 1700000000000000000⟩

/-- The login of Ann with client `c1`. -/
def loginAnn : model.Login := ⟨"ann@example.com", "pass1", "c1", "s3cr3t"⟩

/-- The filter selecting every Role, unpaged. -/
def allRoles : model.ListParam model.GetRoleByParam :=
  ⟨⟨⟨0, false⟩, ⟨"", false⟩, ⟨"", false⟩⟩, ⟨"", false⟩, 0, 0⟩

/-- The Role filter by client id `c1`, as `Oauth2` builds it. -/
def byCid : model.GetRoleByParam := ⟨⟨0, false⟩, ⟨"", false⟩, ⟨"c1", true⟩⟩

/-- The Role filter by a client id no row has. -/
def byUnknownCid : model.GetRoleByParam := ⟨⟨0, false⟩, ⟨"", false⟩, ⟨"zz", true⟩⟩

/-- A world whose cache holds the earlier generation `roleOld` at the single-get
key of `byCid`. -/
def warm : World :=
  ⟨[("gspRole:id=null&scope=null&cid=c1", ⟨showRole roleOld, 300000000000⟩)], [], [],
    1700000000000000000⟩

/-- A world with an empty cache whose next cache command fails. -/
def flaky : World := ⟨[], [some (GoError.other "i/o timeout")], [], 1700000000000000000⟩

/-- A world with an empty cache whose next two cache commands fail. -/
def down : World :=
  ⟨[], [some (GoError.other "i/o timeout"), some (GoError.other "i/o timeout")], [],
    1700000000000000000⟩

/-- A store that reports the given count and rows for every list query and has
no row for a single lookup. -/
def countStore {E : Type} (total : Int) (rows : List E) : domain.Store E :=
  { One := fun _ => .error GoError.sqlErrNoRows
    Count := fun _ => .ok total
    All := fun _ => .ok rows }

/-- A Role repository with the given configuration over the given store. -/
def roleDepWith (conf : domain.Conf) (db : domain.Store psqlmodel.Role) :
    domain.Dep psqlmodel.Role model.GetRoleByParam :=
  domain.role.New conf db
    (tableCodec showRole [roleAdmin, roleOld] psqlmodel.Role.zero)
    (tableCodec (showList showRole) [[], [roleAdmin]] [])
    (tableCodec showPagination [pgOne] model.Pagination.zero)
    (fun p => .ok (showRoleParam p)) (fun p => .ok (showListParam showRoleParam p))

/-- The list filter selecting every Role with the given limit and page. -/
def rolesPage (limit page : Int) : model.ListParam model.GetRoleByParam :=
  ⟨⟨⟨0, false⟩, ⟨"", false⟩, ⟨"", false⟩⟩, ⟨"", false⟩, limit, page⟩

/-- The Role of the end-to-end scenario: scope `admin`, client id `c1`, with the
given stored secret. -/
def scenarioRole (sec : String) : psqlmodel.Role :=
  ⟨7, "admin", "c1", sec, 1, 0, 1, 0, ⟨0, false⟩, ⟨0, false⟩⟩

/-- The account of the end-to-end scenario, registered under the given email
with the given password hash. -/
def scenarioAccount (email hash : String) : psqlmodel.Account :=
  ⟨3, "a", email, hash, 1, 0, 1, 0, ⟨0, false⟩, ⟨0, false⟩⟩

/-- The deployment of the end-to-end scenario: the Role, the account and the
AccountRole row linking them, over the given configuration and primitives. -/
def scenarioDeps (conf : usecase.Conf) (prim : usecase.Primitives) (sec email hash : String) :
    usecase.AccountDep :=
  { conf := conf, prim := prim, account := accountDep [scenarioAccount email hash],
    role := roleDep [scenarioRole sec], accountRole := accountRoleDep [membership] }

/-- A world with an empty cache and no scheduled fault at the given instant. -/
def fresh (now : Int) : World := ⟨[], [], [], now⟩

/-- A write side on which every step succeeds except the commit. -/
def commitFails : domain.TxStore psqlmodel.Role :=
  { BeginTx := none, Insert := fun _ => none, Update := fun _ => none,
    Delete := fun _ _ => none, Rollback := none,
    Commit := some (GoError.other "commit failed") }

/-- A store whose every query fails with a connection error. -/
def downStore {E : Type} : domain.Store E :=
  { One := fun _ => .error (GoError.other "connection refused")
    Count := fun _ => .error (GoError.other "connection refused")
    All := fun _ => .error (GoError.other "connection refused") }

/-- A write side on which the transaction begins and every statement fails. -/
def statementsFail {E : Type} : domain.TxStore E :=
  { BeginTx := none, Insert := fun _ => some (GoError.other "constraint violated"),
    Update := fun _ => some (GoError.other "constraint violated"),
    Delete := fun _ _ => some (GoError.other "constraint violated"), Rollback := none,
    Commit := none }

/-- The value of a character of the standard base64 alphabet. -/
def b64Value (c : Char) : Option Nat :=
  if 'A'.toNat ≤ c.toNat ∧ c.toNat ≤ 'Z'.toNat then some (c.toNat - 'A'.toNat)
  else if 'a'.toNat ≤ c.toNat ∧ c.toNat ≤ 'z'.toNat then some (c.toNat - 'a'.toNat + 26)
  else if '0'.toNat ≤ c.toNat ∧ c.toNat ≤ '9'.toNat then some (c.toNat - '0'.toNat + 52)
  else if c = '+' then some 62
  else if c = '/' then some 63
  else none

/-- The bytes a padded base64 text stands for, four characters at a time. -/
def b64Bytes : List Char → Option (List Nat)
  | [] => some []
  | a :: b :: c :: d :: rest =>
    if c = '=' ∧ d = '=' ∧ rest.isEmpty then
      match b64Value a, b64Value b with
      | some x, some y => some [x * 4 + y / 16]
      | _, _ => none
    else if d = '=' ∧ rest.isEmpty then
      match b64Value a, b64Value b, b64Value c with
      | some x, some y, some z => some [x * 4 + y / 16, y % 16 * 16 + z / 4]
      | _, _, _ => none
    else
      match b64Value a, b64Value b, b64Value c, b64Value d, b64Bytes rest with
      | some x, some y, some z, some u, some more =>
        some ((x * 4 + y / 16) :: (y % 16 * 16 + z / 4) :: (z % 4 * 64 + u) :: more)
      | _, _, _, _, _ => none
  | _ => none

/-- A stand-in for `base64.StdEncoding.DecodeString` on texts whose payload is
ASCII; an ill-formed text gives no bytes and an error. -/
def decodeBase64 (s : String) : String × Option GoError :=
  match b64Bytes s.data with
  | some bytes => (String.mk (bytes.map Char.ofNat), none)
  | none => ("", some (GoError.other "illegal base64 data"))

/-- The external pieces of the Account handlers in the sample deployment. -/
def handlerDep : handler.AccountDep :=
  { Error400 := ⟨400, 400, "Bad Request", "Bad Request"⟩
    unmarshalUpdate := fun body => .ok ⟨body, 0⟩
    DecodeString := decodeBase64 }

/-- Is the modifier a `LIMIT` or an `OFFSET` with a negative argument?  PostgreSQL
refuses such a query ("LIMIT must not be negative"). -/
def refused : QueryMod → Bool
  | .Limit n => decide (n < 0)
  | .Offset n => decide (n < 0)
  | _ => false

/-- A store that reports the given count and rows for every list query, except
that it refuses a row query with a negative `LIMIT` or `OFFSET`. -/
def checkedStore {E : Type} (total : Int) (rows : List E) : domain.Store E :=
  { One := fun _ => .error GoError.sqlErrNoRows
    Count := fun _ => .ok total
    All := fun q =>
      if q.any refused then .error (GoError.other "pq: LIMIT must not be negative")
      else .ok rows }

end sample

/-! ## Facts about the cache commands -/

/-- No cache fault is scheduled. -/
def World.healthy (w : World) : Prop := ∀ f ∈ w.faults, f = none

instance (w : World) : Decidable w.healthy := by
  unfold World.healthy
  infer_instance

/-- The time-to-live `setRedis` uses: the configured one, or five minutes. -/
def domain.expTime {E P : Type} (r : domain.Dep E P) : Int :=
  if r.Conf.RedisExpirationTime = 0 then model.DefaultRedisExpiration
  else r.Conf.RedisExpirationTime

theorem World.healthy_nextFault {w : World} (h : w.healthy) : w.nextFault = none := by
  unfold World.nextFault
  cases hf : w.faults with
  | nil => rfl
  | cons f fs => exact h f (by simp [hf])

theorem World.healthy_issued {w : World} (h : w.healthy) (e : Event) : (w.issued e).healthy :=
  fun f hf => h f (List.mem_of_mem_tail hf)

theorem World.healthy_queried {w : World} (h : w.healthy) (e : Event) : (w.queried e).healthy :=
  h

theorem Redis.Get_of_noFault (w : World) (key : String) (h : w.nextFault = none) :
    Redis.Get w key =
      (match w.redis.lookup key with
        | some ent => ((ent.value, none), w.issued (Event.redisGet key))
        | none => (("", some GoError.redisNil), w.issued (Event.redisGet key))) := by
  unfold Redis.Get
  simp only [h]

namespace domain

variable {E P : Type}

theorem setRedis_of_healthy (r : Dep E P) (w : World) (key data : String) (h : w.healthy) :
    setRedis r w key data =
      (none,
        { redis := (key, ⟨data, expTime r⟩) :: w.redis.filter (fun kv => kv.1 != key),
          faults := w.faults.tail.tail,
          trace := w.trace ++ [Event.redisDel key] ++ [Event.redisSet key data (expTime r)],
          now := w.now }) := by
  have h1 := World.healthy_nextFault h
  have h2 := World.healthy_nextFault (World.healthy_issued h (Event.redisDel key))
  unfold setRedis Redis.Del Redis.Set
  simp only [h1, World.issued, expTime]
  simp [World.nextFault, World.issued] at h2 ⊢
  rw [h2]

theorem getSingleByParamPSQL_ok (r : Dep E P) (w : World) (p : P) (e : E)
    (h : r.DB.One (r.GetQuery p) = .ok e) :
    getSingleByParamPSQL r w p = ((e, none), w.queried (Event.dbOne r.table (r.GetQuery p))) := by
  unfold getSingleByParamPSQL
  simp [h]

theorem getSingleByParamPSQL_error (r : Dep E P) (w : World) (p : P) (err : GoError)
    (h : r.DB.One (r.GetQuery p) = .error err) :
    getSingleByParamPSQL r w p =
      ((r.zero, some (errormsg.WrapErr svcerr.AccountSVCBadRequest (some err) "error get accounts")),
        w.queried (Event.dbOne r.table (r.GetQuery p))) := by
  unfold getSingleByParamPSQL
  simp [h]

end domain

namespace domain

variable {E P : Type}

/-! ## The single read: hit, miss, forced refresh -/

theorem GetSingleByParam_hit (r : Dep E P) (w : World) (cacheControl : String) (p : P)
    (str : String) (ent : CacheEntry) (e : E)
    (hcc : cacheControl ≠ model.MustRevalidate)
    (hkey : r.marshalParam p = .ok str)
    (hread : w.nextFault = none)
    (hhit : w.redis.lookup (Sprintf r.singleKey str) = some ent)
    (hdec : r.json.Unmarshal ent.value = (e, none)) :
    GetSingleByParam r w cacheControl p
        = ((e, none), w.issued (Event.redisGet (Sprintf r.singleKey str))) := by
  unfold GetSingleByParam getSingleByParamRedis
  simp [hkey, hcc, Redis.Get_of_noFault w _ hread, hhit, hdec]

theorem GetSingleByParam_miss (r : Dep E P) (w : World) (cacheControl : String) (p : P)
    (str data : String) (e : E)
    (hcc : cacheControl ≠ model.MustRevalidate)
    (hkey : r.marshalParam p = .ok str)
    (hstore : r.DB.One (r.GetQuery p) = .ok e)
    (hcold : w.redis.lookup (Sprintf r.singleKey str) = none)
    (henc : r.json.Marshal e = .ok data)
    (hw : w.healthy) :
    GetSingleByParam r w cacheControl p
        = ((e, none),
            { redis := (Sprintf r.singleKey str, ⟨data, expTime r⟩) ::
                w.redis.filter (fun kv => kv.1 != Sprintf r.singleKey str),
              faults := w.faults.tail.tail.tail,
              trace := w.trace ++ [Event.redisGet (Sprintf r.singleKey str)]
                ++ [Event.dbOne r.table (r.GetQuery p)]
                ++ [Event.redisDel (Sprintf r.singleKey str)]
                ++ [Event.redisSet (Sprintf r.singleKey str) data (expTime r)],
              now := w.now }) := by
  have h1 := World.healthy_nextFault hw
  have hw1 : ((w.issued (Event.redisGet (Sprintf r.singleKey str))).queried
      (Event.dbOne r.table (r.GetQuery p))).healthy :=
    World.healthy_queried (World.healthy_issued hw _) _
  unfold GetSingleByParam getSingleByParamRedis
  simp only [hkey, Redis.Get_of_noFault w _ h1, hcold, getSingleByParamPSQL_ok r _ p e hstore,
    henc, setRedis_of_healthy r _ _ _ hw1]
  simp [hcc, World.issued, World.queried]

/-- Under must-revalidate a failed store lookup is not reported: the caller gets
the zero entity and a nil error. -/
theorem GetSingleByParam_mustRevalidate_store_error (r : Dep E P) (w : World) (p : P)
    (str : String) (err : GoError)
    (hkey : r.marshalParam p = .ok str)
    (hstore : r.DB.One (r.GetQuery p) = .error err) :
    GetSingleByParam r w model.MustRevalidate p
      = ((r.zero, none), w.queried (Event.dbOne r.table (r.GetQuery p))) := by
  unfold GetSingleByParam
  simp [hkey, getSingleByParamPSQL_error r w p err hstore]

theorem getByParamRedis_world (r : Dep E P) (w : World) (key : String) :
    (getByParamRedis r w key).2 = w.issued (Event.redisGet key) := by
  unfold getByParamRedis Redis.Get
  cases w.nextFault <;> simp
  · cases w.redis.lookup key <;> simp
    split <;> rfl

theorem getByParamPaginationRedis_world (r : Dep E P) (w : World) (key : String) :
    (getByParamPaginationRedis r w key).2 = w.issued (Event.redisGet key) := by
  unfold getByParamPaginationRedis Redis.Get
  cases w.nextFault <;> simp
  · cases w.redis.lookup key <;> simp
    split <;> rfl

end domain

namespace domain

variable {E P : Type}

/-! ## The clock is not touched by a read -/

theorem setRedis_now (r : Dep E P) (w : World) (key data : String) :
    (setRedis r w key data).2.now = w.now := by
  unfold setRedis Redis.Del Redis.Set
  cases w.nextFault <;> simp [World.issued]
  split <;> rfl

theorem getSingleByParamRedis_now (r : Dep E P) (w : World) (key : String) :
    (getSingleByParamRedis r w key).2.now = w.now := by
  unfold getSingleByParamRedis Redis.Get
  cases w.nextFault <;> simp [World.issued]
  cases w.redis.lookup key <;> simp
  split <;> rfl

theorem getSingleByParamPSQL_now (r : Dep E P) (w : World) (p : P) :
    (getSingleByParamPSQL r w p).2.now = w.now := by
  rcases h : r.DB.One (r.GetQuery p) with err | e
  · rw [getSingleByParamPSQL_error r w p err h]; rfl
  · rw [getSingleByParamPSQL_ok r w p e h]; rfl

theorem GetSingleByParam_now (r : Dep E P) (w : World) (cacheControl : String) (p : P) :
    (GetSingleByParam r w cacheControl p).2.now = w.now := by
  unfold GetSingleByParam
  cases r.marshalParam p with
  | error e => rfl
  | ok str =>
    simp only []
    split
    · split
      · split
        · split
          · split
            · simp [getSingleByParamPSQL_now, getSingleByParamRedis_now]
            · split <;>
                simp [setRedis_now, getSingleByParamPSQL_now, getSingleByParamRedis_now]
          · simp [getSingleByParamPSQL_now, getSingleByParamRedis_now]
        · simp [getSingleByParamRedis_now]
      · simp [getSingleByParamRedis_now]
    · split
      · split
        · simp [getSingleByParamPSQL_now]
        · split <;> simp [setRedis_now, getSingleByParamPSQL_now]
      · simp [getSingleByParamPSQL_now]

theorem accountrole.GetSingleByParam_membership_now
    (r : Dep psqlmodel.AccountRole model.GetAccountRoleByParam) (w : World)
    (cacheControl : String) (p : model.GetAccountRoleByParam) :
    (accountrole.GetSingleByParam r w cacheControl p).2.now = w.now := by
  unfold accountrole.GetSingleByParam
  cases r.marshalParam p with
  | error e => rfl
  | ok str =>
    simp only []
    split
    · split
      · simp [getSingleByParamPSQL_now]
      · split
        · simp [getSingleByParamPSQL_now]
        · split <;> simp [setRedis_now, getSingleByParamPSQL_now]
    · split
      · simp [getSingleByParamRedis_now]
      · split
        · split
          · simp [getSingleByParamPSQL_now, getSingleByParamRedis_now]
          · split
            · simp [getSingleByParamPSQL_now, getSingleByParamRedis_now]
            · split <;>
                simp [setRedis_now, getSingleByParamPSQL_now, getSingleByParamRedis_now]
        · simp [getSingleByParamRedis_now]

/-! ## The list query of the store -/

theorem wrap64_of_range (x : Int) (h1 : -(2 ^ 63) ≤ x) (h2 : x < 2 ^ 63) : wrap64 x = x := by
  unfold wrap64
  omega

theorem defaulted_Limit (r : Dep E P) (param : model.ListParam P) :
    (defaulted r param).Limit = effectiveLimit r param := by
  unfold defaulted effectiveLimit
  by_cases h1 : param.Limit = 0 <;> by_cases h2 : param.Page = 0 <;> simp [h1, h2]

theorem defaulted_OrderBy (r : Dep E P) (param : model.ListParam P) :
    (defaulted r param).OrderBy = param.OrderBy := by
  unfold defaulted
  by_cases h1 : param.Limit = 0 <;> by_cases h2 : param.Page = 0 <;> simp [h1, h2]

/-- The body of `getByParamPSQL` over the defaulted filter and the two queries. -/
theorem getByParamPSQL_eq (r : Dep E P) (w : World) (param : model.ListParam P) :
    getByParamPSQL r w param
      = match r.DB.Count (countQuery r param) with
        | .error err =>
          (.ret ([], model.Pagination.zero,
            some (errormsg.WrapErr svcerr.AccountSVCBadRequest (some err) "error count data")),
            w.queried (Event.dbCount r.table (countQuery r param)))
        | .ok count =>
          match r.DB.All (rowQuery r param) with
          | .error err =>
            if err = GoError.sqlErrNoRows then
              (.ret ([], model.Pagination.zero,
                some (errormsg.WrapErr svcerr.AccountSVCBadRequest (some err)
                  "error get accounts")),
                (w.queried (Event.dbCount r.table (countQuery r param))).queried
                  (Event.dbAll r.table (rowQuery r param)))
            else
              (.ret ([], model.Pagination.zero,
                some (errormsg.WrapErr svcerr.AccountSVCBadRequest (some err)
                  "error get accounts")),
                (w.queried (Event.dbCount r.table (countQuery r param))).queried
                  (Event.dbAll r.table (rowQuery r param)))
          | .ok accounts =>
            if 0 < count then
              if (defaulted r param).Limit = 0 then
                (.panic "runtime error: integer divide by zero",
                  (w.queried (Event.dbCount r.table (countQuery r param))).queried
                    (Event.dbAll r.table (rowQuery r param)))
              else
                (.ret (accounts,
                  { CurrentPage := (defaulted r param).Page, CurrentElements := accounts.length,
                    TotalElements := count,
                    TotalPages := wrap64 (wrap64 (Int.tdiv count (defaulted r param).Limit) + 1),
                    SortBy := (defaulted r param).OrderBy.String }, none),
                  (w.queried (Event.dbCount r.table (countQuery r param))).queried
                    (Event.dbAll r.table (rowQuery r param)))
            else
              (.ret (accounts,
                { CurrentPage := (defaulted r param).Page, CurrentElements := accounts.length,
                  TotalElements := count, TotalPages := 1,
                  SortBy := (defaulted r param).OrderBy.String }, none),
                (w.queried (Event.dbCount r.table (countQuery r param))).queried
                  (Event.dbAll r.table (rowQuery r param))) := by
  rfl

/-- What `getByParamPSQL` returns when the count and the row query succeed. -/
theorem getByParamPSQL_of_store (r : Dep E P) (w : World) (param : model.ListParam P)
    (total : Int) (rows : List E)
    (hcount : r.DB.Count (countQuery r param) = .ok total)
    (hall : r.DB.All (rowQuery r param) = .ok rows) :
    (getByParamPSQL r w param).1
      = if 0 < total then
          if effectiveLimit r param = 0 then Outcome.panic "runtime error: integer divide by zero"
          else Outcome.ret (rows,
            { CurrentPage := (defaulted r param).Page, CurrentElements := rows.length,
              TotalElements := total,
              TotalPages := wrap64 (wrap64 (Int.tdiv total (effectiveLimit r param)) + 1),
              SortBy := param.OrderBy.String }, none)
        else Outcome.ret (rows,
            { CurrentPage := (defaulted r param).Page, CurrentElements := rows.length,
              TotalElements := total, TotalPages := 1, SortBy := param.OrderBy.String }, none) := by
  rw [getByParamPSQL_eq, hcount, hall, defaulted_Limit, defaulted_OrderBy]
  by_cases ht : 0 < total
  · by_cases hz : effectiveLimit r param = 0 <;> simp [ht, hz]
  · simp [ht]

/-! ## What a list read leaves in the trace -/

theorem setRedis_trace (r : Dep E P) (w : World) (key data : String) :
    ∃ rest, (setRedis r w key data).2.trace = w.trace ++ rest := by
  unfold setRedis Redis.Del Redis.Set
  cases w.nextFault <;> simp [World.issued]
  split <;> simp

/-- The first step of `getByParamPSQL` is the count query. -/
theorem getByParamPSQL_trace (r : Dep E P) (w : World) (param : model.ListParam P) :
    ∃ rest, (getByParamPSQL r w param).2.trace
      = w.trace ++ Event.dbCount r.table (countQuery r param) :: rest := by
  rw [getByParamPSQL_eq]
  cases r.DB.Count (countQuery r param) with
  | error e => exact ⟨[], rfl⟩
  | ok count =>
    cases r.DB.All (rowQuery r param) with
    | error e =>
      refine ⟨[Event.dbAll r.table (rowQuery r param)], ?_⟩
      simp only []
      split <;> simp [World.queried]
    | ok rows =>
      refine ⟨[Event.dbAll r.table (rowQuery r param)], ?_⟩
      simp only []
      split
      · split <;> simp [World.queried]
      · simp [World.queried]

/-- Under must-revalidate the first collaborator call of `GetByParam` is the
count query of the store. -/
theorem GetByParam_mustRevalidate_trace (r : Dep E P) (w : World) (param : model.ListParam P)
    (str : String) (hkey : r.marshalListParam param = .ok str) :
    ∃ rest, (GetByParam r w model.MustRevalidate param).2.trace
      = w.trace ++ Event.dbCount r.table (countQuery r param) :: rest := by
  obtain ⟨rest0, h0⟩ := getByParamPSQL_trace r w param
  unfold GetByParam
  simp only [hkey, ne_eq, not_true_eq_false, if_false]
  rcases hq : getByParamPSQL r w param with ⟨out, w1⟩
  rw [hq] at h0
  simp only [] at h0
  rcases out with ⟨res, pg, err⟩ | msg
  · cases err with
    | some e => exact ⟨rest0, h0⟩
    | none =>
      simp only []
      cases r.jsonSlice.Marshal res with
      | error e => exact ⟨rest0, h0⟩
      | ok dataStr =>
        obtain ⟨rest1, h1⟩ := setRedis_trace r w1 (Sprintf r.listKey str) dataStr
        simp only []
        rcases hs : setRedis r w1 (Sprintf r.listKey str) dataStr with ⟨e1, w2⟩
        rw [hs] at h1
        simp only [] at h1
        cases e1 with
        | some e => exact ⟨rest0 ++ rest1, by simp [h1, h0]⟩
        | none =>
          simp only []
          cases r.jsonPg.Marshal pg with
          | error e => exact ⟨rest0 ++ rest1, by simp [h1, h0]⟩
          | ok dataStr2 =>
            obtain ⟨rest2, h2⟩ := setRedis_trace r w2 (Sprintf r.listKey str) dataStr2
            simp only []
            rcases hs2 : setRedis r w2 (Sprintf r.listKey str) dataStr2 with ⟨e2, w3⟩
            rw [hs2] at h2
            simp only [] at h2
            cases e2 with
            | some e => exact ⟨rest0 ++ rest1 ++ rest2, by simp [h2, h1, h0]⟩
            | none => exact ⟨rest0 ++ rest1 ++ rest2, by simp [h2, h1, h0]⟩
  · exact ⟨rest0, h0⟩

/-- When one of the two cache reads reports the not-found sentinel, `GetByParam`
continues from the world after the two reads exactly as the forced-fresh read
does. -/
theorem GetByParam_miss_eq (r : Dep E P) (w : World) (cacheControl : String)
    (p : model.ListParam P) (str : String)
    (hcc : cacheControl ≠ model.MustRevalidate)
    (hkey : r.marshalListParam p = .ok str)
    (hnil : (getByParamRedis r w (Sprintf r.listKey str)).1.2 = some GoError.redisNil
      ∨ (getByParamPaginationRedis r (getByParamRedis r w (Sprintf r.listKey str)).2
          (Sprintf r.pgKey str)).1.2 = some GoError.redisNil) :
    GetByParam r w cacheControl p
      = GetByParam r
          (getByParamPaginationRedis r (getByParamRedis r w (Sprintf r.listKey str)).2
            (Sprintf r.pgKey str)).2
          model.MustRevalidate p := by
  have hne : (getByParamRedis r w (Sprintf r.listKey str)).1.2 ≠ none
      ∨ (getByParamPaginationRedis r (getByParamRedis r w (Sprintf r.listKey str)).2
          (Sprintf r.pgKey str)).1.2 ≠ none := by
    rcases hnil with h | h
    · left; rw [h]; simp
    · right; rw [h]; simp
  unfold GetByParam
  simp only [hkey]
  simp [hcc, hne, hnil]

end domain

namespace usecase

/-! ## The verification flow after its stages -/

theorem membershipStage_now (a : AccountDep) (w : World) (v : model.Login) :
    (membershipStage a w v).2.now = w.now := by
  unfold membershipStage accountStage roleStage
  rw [domain.accountrole.GetSingleByParam_membership_now, domain.GetSingleByParam_now,
    domain.GetSingleByParam_now]

/-- When every stage before the signature succeeds, the outcome of `Oauth2` is
the outcome of signing the claims. -/
theorem Oauth2_of_stages (a : AccountDep) (w : World) (v : model.Login)
    (hv : v.Validate = none)
    (hrole : (roleStage a w v).1.2 = none)
    (hsec : a.prim.CompareAES (roleStage a w v).1.1.Sec a.conf.AESSecret v.ClientSecret = true)
    (haccount : (accountStage a w v).1.2 = none)
    (hmember : (membershipStage a w v).1.2 = none)
    (hpwd : a.prim.Compare (accountStage a w v).1.1.Password v.Password = none) :
    (Oauth2 a w v).1
      = match a.prim.SignedString
            { id := (accountStage a w v).1.1.ID, username := (accountStage a w v).1.1.Email,
              exp := Unix (w.now + a.conf.TokenTimeout), scope := (roleStage a w v).1.1.Scope }
            a.conf.TokenSecret with
        | .error err =>
          (model.Auth.zero,
            some (errormsg.WrapErr svcerr.AccountSVCInvalidPasswordNotMatch (some err)
              "invalid token"))
        | .ok t =>
          ({ AccessToken := t, TokenType := model.TokenTypeBearer,
             Exp := some (w.now + a.conf.TokenTimeout),
             Scope := (roleStage a w v).1.1.Scope }, none) := by
  have hnow := membershipStage_now a w v
  unfold membershipStage at hmember hnow
  unfold accountStage at haccount hpwd hmember hnow ⊢
  unfold roleStage at hrole hsec haccount hpwd hmember hnow ⊢
  unfold Oauth2
  simp only [hv, hrole, hsec, haccount, hmember, hpwd, hnow]
  simp
  split <;> simp_all

end usecase

/-! ## Facts about the key formats and the Account use case -/

/-- Two keys built from the nine key formats are equal only if both the format
and the serialized filter are equal. -/
theorem Sprintf_keyFormats_injective (f1 f2 : String) (h1 : f1 ∈ model.KeyFormats)
    (h2 : f2 ∈ model.KeyFormats) (s1 s2 : String) (h : Sprintf f1 s1 = Sprintf f2 s2) :
    f1 = f2 ∧ s1 = s2 := by
  have hd : (Sprintf f1 s1).data = (Sprintf f2 s2).data := by rw [h]
  simp only [model.KeyFormats, List.mem_cons, List.mem_singleton, List.not_mem_nil, or_false]
    at h1 h2
  rcases h1 with h1 | h1 | h1 | h1 | h1 | h1 | h1 | h1 | h1 <;>
  rcases h2 with h2 | h2 | h2 | h2 | h2 | h2 | h2 | h2 | h2 <;>
  subst h1 <;> subst h2 <;>
  simp [Sprintf, sprintfAux, model.GetSingleByParamAccountKey, model.GetByParamAccountKey,
    model.GetByParamAccountPgKey, model.GetSingleByParamRoleKey, model.GetByParamRoleKey,
    model.GetByParamRolePgKey, model.GetSingleByParamAccountRoleKey,
    model.GetByParamAccountRoleKey, model.GetByParamAccountRolePgKey] at hd ⊢ <;>
  exact String.ext hd

/-- Once the account named by `target` has been read, the use case `DeleteByID`
is the repository delete of that account with `actor` as the deleting actor. -/
theorem usecase.DeleteByID_of_lookup (a : usecase.AccountDep)
    (tx : domain.TxStore psqlmodel.Account) (w w1 : World) (actor target : Int)
    (isHardDelete : Bool) (account : psqlmodel.Account)
    (h : domain.GetSingleByParam a.account w model.MustRevalidate
          { ID := NewInt64 target true, Email := ⟨"", false⟩, Name := ⟨"", false⟩ }
        = ((account, none), w1)) :
    usecase.DeleteByID a tx w actor isHardDelete target
      = (domain.deletePSQL tx psqlmodel.Account.withDeletedBy account actor isHardDelete, w1) := by
  unfold usecase.DeleteByID
  rw [h]

/-! ## The claims -/

open domain

section Claims

variable {E P : Type}

/-- Claim C1, evaluated where it fails.  No account has the email of the login,
so the store lookup by email reports `sql.ErrNoRows`; the Account repository,
called with must-revalidate, answers with the zero account and a nil error, so
`Oauth2` does not stop at the Account stage: it goes on to the AccountRole
lookup (with account id 0), and the failure it returns is the one of that later
stage (text "invalid client id/client secret"), not "account not found". -/
theorem oauth2_missing_account_not_rejected :
    (sample.accountDep []).DB.One
        ((sample.accountDep []).GetQuery
          ⟨⟨0, false⟩, NewString sample.loginAnn.Email true, ⟨"", false⟩⟩)
        = .error GoError.sqlErrNoRows
      ∧ (GetSingleByParam (sample.accountDep []) sample.cold model.MustRevalidate
          ⟨⟨0, false⟩, NewString sample.loginAnn.Email true, ⟨"", false⟩⟩).1
          = (psqlmodel.Account.zero, none)
      ∧ Event.dbOne "account_role"
          [QueryMod.Where "account_id=?" (.int 0), QueryMod.Where "role_id=?" (.int 7)]
          ∈ (usecase.Oauth2 (sample.deps [sample.roleAdmin] [] []) sample.cold
              sample.loginAnn).2.trace
      ∧ (usecase.Oauth2 (sample.deps [sample.roleAdmin] [] []) sample.cold
          sample.loginAnn).1.2
          = some (errormsg.WrapErr svcerr.AccountSVCNotAuthorized
              (some (errormsg.WrapErr svcerr.AccountSVCBadRequest (some GoError.sqlErrNoRows)
                "error get accounts"))
              "invalid client id/client secret") := by
  refine ⟨rfl, ?_, ?_, ?_⟩ <;> decide

/-- Claim C2.  For a login that passes validation, whose Role is resolved, whose
client secret is accepted and whose Account is resolved: when the store has no
AccountRole row for the resolved account and role (the lookup reports
`sql.ErrNoRows`), `Oauth2` returns no token and the error of the membership
stage, NotAuthorized (401000) with the text "invalid client id/client secret",
whatever the password and whatever the password comparison would say. -/
theorem oauth2_missing_membership_rejected (a : usecase.AccountDep) (w : World)
    (v : model.Login)
    (hv : v.Validate = none)
    (hrole : (usecase.roleStage a w v).1.2 = none)
    (hsec : a.prim.CompareAES (usecase.roleStage a w v).1.1.Sec a.conf.AESSecret v.ClientSecret
      = true)
    (haccount : (usecase.accountStage a w v).1.2 = none)
    (hnone : a.accountRole.DB.One
        (a.accountRole.GetQuery
          { ID := ⟨0, false⟩, AccountID := NewInt64 (usecase.accountStage a w v).1.1.ID true,
            RoleID := NewInt64 (usecase.roleStage a w v).1.1.ID true })
      = .error GoError.sqlErrNoRows) :
    (∃ cause, (usecase.Oauth2 a w v).1
        = (model.Auth.zero,
            some (errormsg.WrapErr svcerr.AccountSVCNotAuthorized (some cause)
              "invalid client id/client secret")))
      ∧ (usecase.Oauth2 a w v).1.2.bind GoError.code? = some svcerr.CodeNotAuthorized
      ∧ svcerr.CodeNotAuthorized = 401000
      ∧ svcerr.CodeNotAuthorized ≠ svcerr.CodeInvalidPasswordNotMatch := by
  have hm : ∃ cause, (usecase.membershipStage a w v).1.2 = some cause := by
    unfold usecase.membershipStage accountrole.GetSingleByParam
    cases a.accountRole.marshalParam _ with
    | error e => exact ⟨_, rfl⟩
    | ok str =>
      simp only [if_true]
      rw [getSingleByParamPSQL_error _ _ _ _ hnone]
      exact ⟨_, rfl⟩
  obtain ⟨cause, hcause⟩ := hm
  have hres : (usecase.Oauth2 a w v).1
      = (model.Auth.zero,
          some (errormsg.WrapErr svcerr.AccountSVCNotAuthorized (some cause)
            "invalid client id/client secret")) := by
    unfold usecase.membershipStage at hcause
    unfold usecase.accountStage at haccount hcause
    unfold usecase.roleStage at hrole hsec haccount hcause
    unfold usecase.Oauth2
    simp only [hv, hrole, hsec, haccount, hcause]
    simp
  refine ⟨⟨cause, hres⟩, ?_, rfl, by decide⟩
  rw [hres]
  rfl

/-- Witness for C2: Role 7 and account 3 exist, the secret is accepted and no
AccountRole row links them; with the right password and with a wrong one the
outcome is NotAuthorized. -/
theorem oauth2_missing_membership_rejected_witness :
    sample.loginAnn.Validate = none
      ∧ (usecase.Oauth2 (sample.deps [sample.roleAdmin] [sample.accountAnn] []) sample.cold
          sample.loginAnn).1.2.bind GoError.code? = some svcerr.CodeNotAuthorized
      ∧ (usecase.Oauth2 (sample.deps [sample.roleAdmin] [sample.accountAnn] []) sample.cold
          { sample.loginAnn with Password := "wrong" }).1.2.bind GoError.code?
          = some svcerr.CodeNotAuthorized :=
  ⟨by decide,
    (oauth2_missing_membership_rejected (sample.deps [sample.roleAdmin] [sample.accountAnn] [])
      sample.cold sample.loginAnn (by decide) (by decide) (by decide) (by decide) rfl).2.1,
    (oauth2_missing_membership_rejected (sample.deps [sample.roleAdmin] [sample.accountAnn] [])
      sample.cold { sample.loginAnn with Password := "wrong" } (by decide) (by decide)
      (by decide) (by decide) rfl).2.1⟩

/-- Claim C3, evaluated where it fails.  `Oauth2` resolves the Role with the
empty directive, not with must-revalidate: its first collaborator call is a
cache read, and with an entry at the Role key the store is not asked for the
Role at all.  Here the cache holds an earlier generation with scope `sup`
while the store holds scope `admin`; the token carries `sup`. -/
theorem oauth2_role_read_from_cache :
    (usecase.Oauth2 (sample.deps [sample.roleAdmin] [sample.accountAnn] [sample.membership])
        sample.warm sample.loginAnn).1
        = (⟨"jwt:ts:3:ann@example.com:1700003600:sup", "Bearer", some 1700003600000000000,
            "sup"⟩, none)
      ∧ (usecase.Oauth2 (sample.deps [sample.roleAdmin] [sample.accountAnn] [sample.membership])
          sample.warm sample.loginAnn).2.trace.head?
          = some (Event.redisGet "gspRole:id=null&scope=null&cid=c1")
      ∧ Event.dbOne "role" [QueryMod.Where "cid=?" (.str "c1")]
          ∉ (usecase.Oauth2
              (sample.deps [sample.roleAdmin] [sample.accountAnn] [sample.membership])
              sample.warm sample.loginAnn).2.trace
      ∧ (sample.roleDep [sample.roleAdmin]).DB.One
          ((sample.roleDep [sample.roleAdmin]).GetQuery sample.byCid) = .ok sample.roleAdmin := by
  refine ⟨?_, ?_, ?_, rfl⟩ <;> decide

/-- Claim C4, evaluated where it fails.  Under must-revalidate a store lookup
that finds zero rows makes `GetSingleByParam` return the zero entity together
with a nil error; under the empty directive the same lookup is reported. -/
theorem getSingleByParam_mustRevalidate_hides_store_failure :
    (sample.roleDep [sample.roleAdmin]).DB.One
        ((sample.roleDep [sample.roleAdmin]).GetQuery sample.byUnknownCid)
        = .error GoError.sqlErrNoRows
      ∧ (GetSingleByParam (sample.roleDep [sample.roleAdmin]) sample.cold model.MustRevalidate
          sample.byUnknownCid).1 = (psqlmodel.Role.zero, none)
      ∧ (GetSingleByParam (sample.roleDep [sample.roleAdmin]) sample.cold ""
          sample.byUnknownCid).1.2.bind GoError.code? = some svcerr.CodeBadRequest := by
  refine ⟨rfl, ?_, ?_⟩ <;> decide

/-- Claim C5, evaluated where it fails.  After a successful `GetByParam` (cache
miss under the empty directive, or must-revalidate) the list key holds the
serialized pagination block, which replaced the serialized list, and the
pagination key holds nothing. -/
theorem getByParam_pagination_stored_under_list_key :
    (GetByParam (sample.roleDep [sample.roleAdmin]) sample.cold "" sample.allRoles).1
        = Outcome.ret ([sample.roleAdmin], sample.pgOne, none)
      ∧ (GetByParam (sample.roleDep [sample.roleAdmin]) sample.cold ""
          sample.allRoles).2.redis.lookup
            (Sprintf model.GetByParamRoleKey (sample.showListParam sample.showRoleParam
              sample.allRoles))
          = some ⟨sample.showPagination sample.pgOne, model.DefaultRedisExpiration⟩
      ∧ (GetByParam (sample.roleDep [sample.roleAdmin]) sample.cold ""
          sample.allRoles).2.redis.lookup
            (Sprintf model.GetByParamRolePgKey (sample.showListParam sample.showRoleParam
              sample.allRoles))
          = none
      ∧ (GetByParam (sample.roleDep [sample.roleAdmin]) sample.cold model.MustRevalidate
          sample.allRoles).2.redis
          = [(Sprintf model.GetByParamRoleKey (sample.showListParam sample.showRoleParam
              sample.allRoles),
              ⟨sample.showPagination sample.pgOne, model.DefaultRedisExpiration⟩)] := by
  refine ⟨?_, ?_, ?_, ?_⟩ <;> decide

/-- Claim C6, evaluated where it fails.  From a cold cache, two consecutive
`GetByParam` calls with the same filter under the empty directive return the
same values, but the second one queries the store again (count and rows): the
first call left no pagination entry, so the second is a miss as well. -/
theorem getByParam_second_read_queries_store :
    (GetByParam (sample.roleDep [sample.roleAdmin])
        (GetByParam (sample.roleDep [sample.roleAdmin]) sample.cold "" sample.allRoles).2 ""
        sample.allRoles).1
        = (GetByParam (sample.roleDep [sample.roleAdmin]) sample.cold "" sample.allRoles).1
      ∧ storeAccesses
          (GetByParam (sample.roleDep [sample.roleAdmin]) sample.cold "" sample.allRoles).2.trace
          = 2
      ∧ storeAccesses
          (GetByParam (sample.roleDep [sample.roleAdmin])
            (GetByParam (sample.roleDep [sample.roleAdmin]) sample.cold "" sample.allRoles).2 ""
            sample.allRoles).2.trace
          = 4 := by
  refine ⟨?_, ?_, ?_⟩ <;> decide

/-- Claim C7.  For a filter whose key is absent from the cache and whose store
lookup finds `e`, with a codec that decodes what it encodes and no cache
fault: `GetSingleByParam` under any directive other than must-revalidate
returns `e` without error and leaves the serialization of `e` at the key; the
same call repeated at once returns `e` again, adding one cache read and no
store access to the trace. -/
theorem getSingleByParam_miss_then_hit (r : Dep E P) (w : World) (cacheControl : String) (p : P)
    (str data : String) (e : E)
    (hcc : cacheControl ≠ model.MustRevalidate)
    (hkey : r.marshalParam p = .ok str)
    (hstore : r.DB.One (r.GetQuery p) = .ok e)
    (hcold : w.redis.lookup (Sprintf r.singleKey str) = none)
    (henc : r.json.Marshal e = .ok data)
    (hdec : r.json.Unmarshal data = (e, none))
    (hw : w.healthy) :
    (GetSingleByParam r w cacheControl p).1 = (e, none)
      ∧ (GetSingleByParam r w cacheControl p).2.redis.lookup (Sprintf r.singleKey str)
          = some ⟨data, expTime r⟩
      ∧ (GetSingleByParam r (GetSingleByParam r w cacheControl p).2 cacheControl p).1 = (e, none)
      ∧ (GetSingleByParam r (GetSingleByParam r w cacheControl p).2 cacheControl p).2.trace
          = (GetSingleByParam r w cacheControl p).2.trace
              ++ [Event.redisGet (Sprintf r.singleKey str)]
      ∧ storeAccesses
          (GetSingleByParam r (GetSingleByParam r w cacheControl p).2 cacheControl p).2.trace
          = storeAccesses (GetSingleByParam r w cacheControl p).2.trace := by
  rw [GetSingleByParam_miss r w cacheControl p str data e hcc hkey hstore hcold henc hw]
  have hw3 : World.nextFault
      { redis := (Sprintf r.singleKey str, ⟨data, expTime r⟩) ::
          w.redis.filter (fun kv => kv.1 != Sprintf r.singleKey str),
        faults := w.faults.tail.tail.tail,
        trace := w.trace ++ [Event.redisGet (Sprintf r.singleKey str)]
          ++ [Event.dbOne r.table (r.GetQuery p)]
          ++ [Event.redisDel (Sprintf r.singleKey str)]
          ++ [Event.redisSet (Sprintf r.singleKey str) data (expTime r)],
        now := w.now } = none := by
    apply World.healthy_nextFault
    intro f hf
    exact hw f (List.mem_of_mem_tail (List.mem_of_mem_tail (List.mem_of_mem_tail hf)))
  rw [GetSingleByParam_hit r _ cacheControl p str ⟨data, expTime r⟩ e hcc hkey hw3
    (by simp [List.lookup]) hdec]
  simp [World.issued, storeAccesses, Event.isStore, List.lookup]

/-- The miss-then-hit statement at the Role repository, empty cache, filter by client id. -/
theorem getSingleByParam_miss_then_hit_witness :
    ("" : String) ≠ model.MustRevalidate
      ∧ (sample.roleDep [sample.roleAdmin]).marshalParam sample.byCid
          = .ok "id=null&scope=null&cid=c1"
      ∧ (sample.roleDep [sample.roleAdmin]).DB.One
          ((sample.roleDep [sample.roleAdmin]).GetQuery sample.byCid) = .ok sample.roleAdmin
      ∧ sample.cold.redis.lookup
          (Sprintf (sample.roleDep [sample.roleAdmin]).singleKey "id=null&scope=null&cid=c1")
          = none
      ∧ (sample.roleDep [sample.roleAdmin]).json.Marshal sample.roleAdmin
          = .ok "id=7&scope=admin&cid=c1&sec=enc:k:s3cr3t"
      ∧ (sample.roleDep [sample.roleAdmin]).json.Unmarshal "id=7&scope=admin&cid=c1&sec=enc:k:s3cr3t"
          = (sample.roleAdmin, none)
      ∧ sample.cold.healthy
      ∧ (GetSingleByParam (sample.roleDep [sample.roleAdmin]) sample.cold "" sample.byCid).1
          = (sample.roleAdmin, none)
      ∧ storeAccesses
          (GetSingleByParam (sample.roleDep [sample.roleAdmin])
            (GetSingleByParam (sample.roleDep [sample.roleAdmin]) sample.cold ""
              sample.byCid).2 "" sample.byCid).2.trace
          = storeAccesses
              (GetSingleByParam (sample.roleDep [sample.roleAdmin]) sample.cold ""
                sample.byCid).2.trace :=
  have h := getSingleByParam_miss_then_hit (sample.roleDep [sample.roleAdmin]) sample.cold ""
    sample.byCid "id=null&scope=null&cid=c1" "id=7&scope=admin&cid=c1&sec=enc:k:s3cr3t"
    sample.roleAdmin (by decide) rfl rfl (by decide) rfl (by decide) (by decide)
  ⟨by decide, rfl, rfl, by decide, rfl, by decide, by decide, h.1, h.2.2.2.2⟩

/-- Claim C8.  Under any directive other than must-revalidate, when the cache
read is served and the entry at the filter's single-get key decodes to `e`,
`GetSingleByParam` returns `e` without error; the only collaborator call is
that cache read, so no store access is made, and the cache content is
unchanged. -/
theorem getSingleByParam_cache_hit (r : Dep E P) (w : World) (cacheControl : String) (p : P)
    (str : String) (ent : CacheEntry) (e : E)
    (hcc : cacheControl ≠ model.MustRevalidate)
    (hkey : r.marshalParam p = .ok str)
    (hread : w.nextFault = none)
    (hhit : w.redis.lookup (Sprintf r.singleKey str) = some ent)
    (hdec : r.json.Unmarshal ent.value = (e, none)) :
    (GetSingleByParam r w cacheControl p).1 = (e, none)
      ∧ (GetSingleByParam r w cacheControl p).2.trace
          = w.trace ++ [Event.redisGet (Sprintf r.singleKey str)]
      ∧ storeAccesses (GetSingleByParam r w cacheControl p).2.trace = storeAccesses w.trace
      ∧ (GetSingleByParam r w cacheControl p).2.redis = w.redis := by
  rw [GetSingleByParam_hit r w cacheControl p str ent e hcc hkey hread hhit hdec]
  simp [World.issued, storeAccesses, Event.isStore]

/-- The cache-hit statement at a Role repository with an empty store and a warm cache. -/
theorem getSingleByParam_cache_hit_witness :
    ("" : String) ≠ model.MustRevalidate
      ∧ (sample.roleDep []).marshalParam sample.byCid = .ok "id=null&scope=null&cid=c1"
      ∧ sample.warm.nextFault = none
      ∧ sample.warm.redis.lookup (Sprintf (sample.roleDep []).singleKey "id=null&scope=null&cid=c1")
          = some ⟨sample.showRole sample.roleOld, 300000000000⟩
      ∧ (sample.roleDep []).json.Unmarshal
          (CacheEntry.mk (sample.showRole sample.roleOld) 300000000000).value
          = (sample.roleOld, none)
      ∧ (GetSingleByParam (sample.roleDep []) sample.warm "" sample.byCid).1
          = (sample.roleOld, none)
      ∧ (GetSingleByParam (sample.roleDep []) sample.warm "" sample.byCid).2.trace
          = sample.warm.trace
            ++ [Event.redisGet (Sprintf (sample.roleDep []).singleKey "id=null&scope=null&cid=c1")]
      ∧ storeAccesses (GetSingleByParam (sample.roleDep []) sample.warm "" sample.byCid).2.trace
          = storeAccesses sample.warm.trace
      ∧ (GetSingleByParam (sample.roleDep []) sample.warm "" sample.byCid).2.redis
          = sample.warm.redis :=
  ⟨by decide, rfl, by decide, by decide, by decide,
    getSingleByParam_cache_hit (sample.roleDep []) sample.warm "" sample.byCid
      "id=null&scope=null&cid=c1" ⟨sample.showRole sample.roleOld, 300000000000⟩ sample.roleOld
      (by decide) rfl (by decide) (by decide) (by decide)⟩

/-- Claim C9.  For every filter (whose key is computed), `GetSingleByParam`
with must-revalidate adds no cache read and exactly one store access to the
trace; when the store read gives `e` (serialized as `data`) it deletes the key
and, unless that delete fails, sets the key to `data` with the configured
time-to-live; with no cache fault it returns `e` and the cache then holds
`data` at the key, whatever it held before. -/
theorem getSingleByParam_mustRevalidate_refreshes (r : Dep E P) (w : World) (p : P)
    (str : String) (hkey : r.marshalParam p = .ok str) :
    cacheReads (GetSingleByParam r w model.MustRevalidate p).2.trace = cacheReads w.trace
      ∧ storeAccesses (GetSingleByParam r w model.MustRevalidate p).2.trace
          = storeAccesses w.trace + 1
      ∧ ∀ (e : E) (data : String), r.DB.One (r.GetQuery p) = .ok e → r.json.Marshal e = .ok data →
          (GetSingleByParam r w model.MustRevalidate p).2.trace
              = w.trace ++ [Event.dbOne r.table (r.GetQuery p),
                  Event.redisDel (Sprintf r.singleKey str)]
                ++ (if w.nextFault = none then
                      [Event.redisSet (Sprintf r.singleKey str) data (expTime r)] else [])
            ∧ (w.healthy →
                (GetSingleByParam r w model.MustRevalidate p).1 = (e, none)
                ∧ (GetSingleByParam r w model.MustRevalidate p).2.redis.lookup
                    (Sprintf r.singleKey str) = some ⟨data, expTime r⟩) := by
  unfold GetSingleByParam getSingleByParamPSQL setRedis Redis.Del Redis.Set
  simp only [hkey]
  rcases hone : r.DB.One (r.GetQuery p) with err | e
  · simp [cacheReads, storeAccesses, World.queried, Event.isStore, Event.isCacheRead,
      List.filter_append]
  · rcases hm : r.json.Marshal e with err | data
    · simp [cacheReads, storeAccesses, World.queried, Event.isStore, Event.isCacheRead,
        List.filter_append]
      intro e1 d1 he hm1
      subst he
      simp_all
    · rcases hf : w.faults with _ | ⟨f1, fs⟩
      · simp [cacheReads, storeAccesses, World.queried, World.issued, World.nextFault,
          World.healthy, Event.isStore, Event.isCacheRead, List.filter_append, hf, expTime,
          List.lookup]
        intro e1 d1 he hm1
        subst he
        simp_all
      · cases f1 with
        | some e1 =>
          simp [cacheReads, storeAccesses, World.queried, World.issued, World.nextFault,
            World.healthy, Event.isStore, Event.isCacheRead, List.filter_append, hf, expTime]
        | none =>
          rcases fs with _ | ⟨f2, fs⟩
          · simp [cacheReads, storeAccesses, World.queried, World.issued, World.nextFault,
              World.healthy, Event.isStore, Event.isCacheRead, List.filter_append, hf, expTime,
              List.lookup]
            intro e1 d1 he hm1
            subst he
            simp_all
          · cases f2 with
            | some e2 =>
              simp [cacheReads, storeAccesses, World.queried, World.issued, World.nextFault,
                World.healthy, Event.isStore, Event.isCacheRead, List.filter_append, hf, expTime]
              intro e1 d1 he hm1
              subst he
              simp_all
            | none =>
              simp [cacheReads, storeAccesses, World.queried, World.issued, World.nextFault,
                World.healthy, Event.isStore, Event.isCacheRead, List.filter_append, hf, expTime,
                List.lookup]
              intro e1 d1 he hm1
              subst he
              simp_all

/-- The forced-refresh statement at the Role repository over a cache holding an older entry. -/
theorem getSingleByParam_mustRevalidate_refreshes_witness :
    (sample.roleDep [sample.roleAdmin]).marshalParam sample.byCid
        = .ok "id=null&scope=null&cid=c1"
      ∧ cacheReads (GetSingleByParam (sample.roleDep [sample.roleAdmin]) sample.warm
          model.MustRevalidate sample.byCid).2.trace = cacheReads sample.warm.trace
      ∧ storeAccesses (GetSingleByParam (sample.roleDep [sample.roleAdmin]) sample.warm
          model.MustRevalidate sample.byCid).2.trace = storeAccesses sample.warm.trace + 1
      ∧ (GetSingleByParam (sample.roleDep [sample.roleAdmin]) sample.warm
          model.MustRevalidate sample.byCid).2.redis.lookup
            (Sprintf (sample.roleDep [sample.roleAdmin]).singleKey "id=null&scope=null&cid=c1")
          = some ⟨"id=7&scope=admin&cid=c1&sec=enc:k:s3cr3t",
              expTime (sample.roleDep [sample.roleAdmin])⟩ :=
  have h := getSingleByParam_mustRevalidate_refreshes (sample.roleDep [sample.roleAdmin])
    sample.warm sample.byCid "id=null&scope=null&cid=c1" rfl
  ⟨rfl, h.1, h.2.1,
    ((h.2.2 sample.roleAdmin "id=7&scope=admin&cid=c1&sec=enc:k:s3cr3t" rfl rfl).2
      (by decide)).2⟩

/-- Claim C10 as stated, evaluated where it fails.  The read of the list key
fails with an error other than the sentinel while the pagination key is absent
(sentinel): `GetByParam` under the empty directive falls through to the store
(count and rows) and returns success. -/
theorem getByParam_cache_error_falls_through :
    ("" : String) ≠ model.MustRevalidate
      ∧ (getByParamRedis (sample.roleDep [sample.roleAdmin]) sample.flaky
          (Sprintf model.GetByParamRoleKey (sample.showListParam sample.showRoleParam
            sample.allRoles))).1.2 = some (GoError.other "i/o timeout")
      ∧ GoError.other "i/o timeout" ≠ GoError.redisNil
      ∧ (GetByParam (sample.roleDep [sample.roleAdmin]) sample.flaky "" sample.allRoles).1
          = Outcome.ret ([sample.roleAdmin], sample.pgOne, none)
      ∧ storeAccesses
          (GetByParam (sample.roleDep [sample.roleAdmin]) sample.flaky "" sample.allRoles).2.trace
          = storeAccesses sample.flaky.trace + 2 := by
  refine ⟨?_, ?_, ?_, ?_, ?_⟩ <;> decide

/-- Claim C10, amended.  Under any directive other than must-revalidate: when
at least one of the two cache reads (list key, pagination key) fails and
neither of them reports the not-found sentinel, `GetByParam` returns a
BadRequest failure and its only collaborator calls are the two cache reads, so
no store access is made; when either read reports the not-found sentinel,
whatever the outcome of the other read, the call continues from the world after
the two reads exactly as the forced-fresh read does: its next collaborator call
is the count query of the store. -/
theorem getByParam_cache_error_no_fallthrough (r : Dep E P) (w : World) (cacheControl : String)
    (p : model.ListParam P) (str : String)
    (hcc : cacheControl ≠ model.MustRevalidate)
    (hkey : r.marshalListParam p = .ok str) :
    (((getByParamRedis r w (Sprintf r.listKey str)).1.2 ≠ none
        ∨ (getByParamPaginationRedis r (getByParamRedis r w (Sprintf r.listKey str)).2
            (Sprintf r.pgKey str)).1.2 ≠ none) →
      (getByParamRedis r w (Sprintf r.listKey str)).1.2 ≠ some GoError.redisNil →
      (getByParamPaginationRedis r (getByParamRedis r w (Sprintf r.listKey str)).2
          (Sprintf r.pgKey str)).1.2 ≠ some GoError.redisNil →
      (GetByParam r w cacheControl p).1
          = Outcome.ret ((getByParamRedis r w (Sprintf r.listKey str)).1.1,
              (getByParamPaginationRedis r (getByParamRedis r w (Sprintf r.listKey str)).2
                (Sprintf r.pgKey str)).1.1,
              some (errormsg.WrapErr svcerr.AccountSVCBadRequest none "error marshal param"))
        ∧ (GetByParam r w cacheControl p).2.trace
            = w.trace
              ++ [Event.redisGet (Sprintf r.listKey str), Event.redisGet (Sprintf r.pgKey str)]
        ∧ storeAccesses (GetByParam r w cacheControl p).2.trace = storeAccesses w.trace)
      ∧ (((getByParamRedis r w (Sprintf r.listKey str)).1.2 = some GoError.redisNil
          ∨ (getByParamPaginationRedis r (getByParamRedis r w (Sprintf r.listKey str)).2
              (Sprintf r.pgKey str)).1.2 = some GoError.redisNil) →
        GetByParam r w cacheControl p
            = GetByParam r
                (getByParamPaginationRedis r (getByParamRedis r w (Sprintf r.listKey str)).2
                  (Sprintf r.pgKey str)).2
                model.MustRevalidate p
          ∧ (∃ rest, (GetByParam r w cacheControl p).2.trace
              = w.trace
                ++ [Event.redisGet (Sprintf r.listKey str), Event.redisGet (Sprintf r.pgKey str),
                    Event.dbCount r.table (countQuery r p)]
                ++ rest)
          ∧ storeAccesses w.trace < storeAccesses (GetByParam r w cacheControl p).2.trace) := by
  have hw2 : (getByParamPaginationRedis r (getByParamRedis r w (Sprintf r.listKey str)).2
      (Sprintf r.pgKey str)).2.trace
        = w.trace ++ [Event.redisGet (Sprintf r.listKey str), Event.redisGet (Sprintf r.pgKey str)] := by
    rw [getByParamPaginationRedis_world, getByParamRedis_world]
    simp [World.issued]
  constructor
  · intro hfail hlist hpg
    have main : GetByParam r w cacheControl p
        = (Outcome.ret ((getByParamRedis r w (Sprintf r.listKey str)).1.1,
              (getByParamPaginationRedis r (getByParamRedis r w (Sprintf r.listKey str)).2
                (Sprintf r.pgKey str)).1.1,
              some (errormsg.WrapErr svcerr.AccountSVCBadRequest none "error marshal param")),
            (getByParamPaginationRedis r (getByParamRedis r w (Sprintf r.listKey str)).2
                (Sprintf r.pgKey str)).2) := by
      unfold GetByParam
      simp only [hkey]
      simp [hcc, hfail, hlist, hpg]
    rw [main]
    refine ⟨rfl, hw2, ?_⟩
    simp only [hw2]
    simp [storeAccesses, Event.isStore, List.filter_append]
  · intro hnil
    have heq := GetByParam_miss_eq r w cacheControl p str hcc hkey hnil
    obtain ⟨rest, hrest⟩ := GetByParam_mustRevalidate_trace r
      (getByParamPaginationRedis r (getByParamRedis r w (Sprintf r.listKey str)).2
        (Sprintf r.pgKey str)).2 p str hkey
    rw [hw2] at hrest
    have htrace : (GetByParam r w cacheControl p).2.trace
        = w.trace
          ++ [Event.redisGet (Sprintf r.listKey str), Event.redisGet (Sprintf r.pgKey str),
              Event.dbCount r.table (countQuery r p)]
          ++ rest := by
      rw [heq, hrest]
      simp
    refine ⟨heq, ⟨rest, htrace⟩, ?_⟩
    rw [htrace]
    simp [storeAccesses, Event.isStore, List.filter_append]

/-- The amended statement at the Role repository: when both cache reads time out
no store access is made; when the list read times out and the pagination read
misses the store is queried. -/
theorem getByParam_cache_error_no_fallthrough_witness :
    ("" : String) ≠ model.MustRevalidate
      ∧ (sample.roleDep [sample.roleAdmin]).marshalListParam sample.allRoles
          = .ok "id=null&scope=null&cid=null&order_by=null&limit=0&page=0"
      ∧ (getByParamRedis (sample.roleDep [sample.roleAdmin]) sample.down
          (Sprintf (sample.roleDep [sample.roleAdmin]).listKey
            "id=null&scope=null&cid=null&order_by=null&limit=0&page=0")).1.2
          = some (GoError.other "i/o timeout")
      ∧ (GetByParam (sample.roleDep [sample.roleAdmin]) sample.down "" sample.allRoles).1
          = Outcome.ret ([], model.Pagination.zero,
              some (errormsg.WrapErr svcerr.AccountSVCBadRequest none "error marshal param"))
      ∧ storeAccesses
          (GetByParam (sample.roleDep [sample.roleAdmin]) sample.down "" sample.allRoles).2.trace
          = storeAccesses sample.down.trace
      ∧ storeAccesses sample.flaky.trace
          < storeAccesses
              (GetByParam (sample.roleDep [sample.roleAdmin]) sample.flaky ""
                sample.allRoles).2.trace :=
  have h := (getByParam_cache_error_no_fallthrough (sample.roleDep [sample.roleAdmin])
    sample.down "" sample.allRoles "id=null&scope=null&cid=null&order_by=null&limit=0&page=0"
    (by decide) rfl).1 (by decide) (by decide) (by decide)
  have h2 := (getByParam_cache_error_no_fallthrough (sample.roleDep [sample.roleAdmin])
    sample.flaky "" sample.allRoles "id=null&scope=null&cid=null&order_by=null&limit=0&page=0"
    (by decide) rfl).2 (by decide)
  ⟨by decide, rfl, by decide, h.1, h.2.2, h2.2.2⟩

/-- Claim C11.  `Login.Validate` returns no error exactly when the email is
non-empty and matches `RegExpEmail` and the password is non-empty with length
(Go `len`, in bytes) between 5 and 8; otherwise it returns the sub-reason of
the first failed check in the order empty-email, bad-format, empty-password,
too-short, too-long; the five sub-reasons carry the five codes 40009 to 40013,
which are pairwise distinct. -/
theorem login_validate_characterised (l : model.Login) :
    (l.Validate = none ↔
        l.Email ≠ "" ∧ model.RegExpEmail.MatchString l.Email = true ∧ l.Password ≠ ""
          ∧ 5 ≤ l.Password.utf8ByteSize ∧ l.Password.utf8ByteSize ≤ 8)
      ∧ (l.Email = "" →
          l.Validate = some (errormsg.WrapErr svcerr.AccountSVCInvalidEmptyEmail none
            "invalid empty name"))
      ∧ (l.Email ≠ "" → model.RegExpEmail.MatchString l.Email = false →
          l.Validate = some (errormsg.WrapErr svcerr.AccountSVCInvalidEmailFormat none
            "invalid email format"))
      ∧ (l.Email ≠ "" → model.RegExpEmail.MatchString l.Email = true → l.Password = "" →
          l.Validate = some (errormsg.WrapErr svcerr.AccountSVCInvalidEmptyPassword none
            "invalid empty password"))
      ∧ (l.Email ≠ "" → model.RegExpEmail.MatchString l.Email = true → l.Password ≠ "" →
          l.Password.utf8ByteSize < 5 →
          l.Validate = some (errormsg.WrapErr svcerr.AccountSVCInvalidMinimumPassword none
            "invalid minimum password"))
      ∧ (l.Email ≠ "" → model.RegExpEmail.MatchString l.Email = true → l.Password ≠ "" →
          5 ≤ l.Password.utf8ByteSize → 8 < l.Password.utf8ByteSize →
          l.Validate = some (errormsg.WrapErr svcerr.AccountSVCInvalidMaximumPassword none
            "invalid maximum password"))
      ∧ [svcerr.AccountSVCInvalidEmptyEmail.Code, svcerr.AccountSVCInvalidEmailFormat.Code,
          svcerr.AccountSVCInvalidEmptyPassword.Code, svcerr.AccountSVCInvalidMinimumPassword.Code,
          svcerr.AccountSVCInvalidMaximumPassword.Code]
          = [svcerr.CodeInvalidEmptyEmail, svcerr.CodeInvalidEmailFormat,
              svcerr.CodeInvalidEmptyPassword, svcerr.CodeInvalidMinimumPassword,
              svcerr.CodeInvalidMaximumPassword]
      ∧ [svcerr.CodeInvalidEmptyEmail, svcerr.CodeInvalidEmailFormat,
          svcerr.CodeInvalidEmptyPassword, svcerr.CodeInvalidMinimumPassword,
          svcerr.CodeInvalidMaximumPassword].Nodup := by
  refine ⟨?_, ?_, ?_, ?_, ?_, ?_, by decide, by decide⟩
  · unfold model.Login.Validate
    by_cases h1 : l.Email = "" <;> by_cases h2 : model.RegExpEmail.MatchString l.Email = true <;>
      by_cases h3 : l.Password = "" <;> by_cases h4 : l.Password.utf8ByteSize < 5 <;>
      by_cases h5 : l.Password.utf8ByteSize > 8 <;> simp [h1, h2, h3, h4, h5]
    all_goals omega
  · intro h1; simp [model.Login.Validate, h1]
  · intro h1 h2; simp [model.Login.Validate, h1, h2]
  · intro h1 h2 h3; simp [model.Login.Validate, h1, h2, h3]
  · intro h1 h2 h3 h4; simp [model.Login.Validate, h1, h2, h3, h4]
  · intro h1 h2 h3 h4 h5
    have : ¬ l.Password.utf8ByteSize < 5 := by omega
    simp [model.Login.Validate, h1, h2, h3, this, h5]

/-- Claim C12, evaluated where it fails.  The login with email `a@b.com` and
password `pass1` does not pass `Login.Validate`: after the `@` the pattern asks
for one character of `[a-zA-Z0-9]` and at least one more of `[a-zA-Z0-9.\-]`
before the last dot, so an address whose domain label has one character
(`a@b.com`, `bob@x.org`, `a@t.co`) is refused as a bad format, and `Oauth2`
returns that error before any collaborator is called, although the account,
the Role and the AccountRole row exist.  `Register.Validate` accepts the same
email, and in the same deployment the address `a@bb.com` is issued the token. -/
theorem oauth2_scenario_email_rejected :
    model.RegExpEmail.MatchString "a@b.com" = false
      ∧ model.RegExpEmail.MatchString "bob@x.org" = false
      ∧ model.RegExpEmail.MatchString "a@t.co" = false
      ∧ (model.Login.mk "a@b.com" "pass1" "c1" "s3cr3t").Validate
          = some (errormsg.WrapErr svcerr.AccountSVCInvalidEmailFormat none "invalid email format")
      ∧ usecase.Oauth2
          (sample.scenarioDeps ⟨3600000000000, "ts", "k"⟩ sample.prim "enc:k:s3cr3t" "a@b.com"
            "hash:pass1")
          (sample.fresh 1700000000000000000) ⟨"a@b.com", "pass1", "c1", "s3cr3t"⟩
          = ((model.Auth.zero,
              some (errormsg.WrapErr svcerr.AccountSVCInvalidEmailFormat none
                "invalid email format")), sample.fresh 1700000000000000000)
      ∧ (model.Register.mk "a" "a@b.com" "pass1" "pass1" 1).Validate = none
      ∧ (usecase.Oauth2
          (sample.scenarioDeps ⟨3600000000000, "ts", "k"⟩ sample.prim "enc:k:s3cr3t" "a@bb.com"
            "hash:pass1")
          (sample.fresh 1700000000000000000) ⟨"a@bb.com", "pass1", "c1", "s3cr3t"⟩).1
        = (⟨"jwt:ts:3:a@bb.com:1700003600:admin", "Bearer",
            some (1700000000000000000 + 3600000000000), "admin"⟩, none) := by
  refine ⟨?_, ?_, ?_, ?_, ?_, ?_, ?_⟩ <;> decide

/-- Claim C13.  For two structurally valid logins, one whose Role lookup reports
an error and one whose Role is found while the stored secret does not match
the supplied one: both `Oauth2` calls fail with an error built from the same
message `AccountSVCNotAuthorized`, so they carry the same code 401000 and the
same message and translation. -/
theorem oauth2_role_failures_indistinguishable (a₁ a₂ : usecase.AccountDep) (w₁ w₂ : World)
    (v₁ v₂ : model.Login) (err : GoError)
    (hv₁ : v₁.Validate = none) (hv₂ : v₂.Validate = none)
    (hrole₁ : (usecase.roleStage a₁ w₁ v₁).1.2 = some err)
    (hrole₂ : (usecase.roleStage a₂ w₂ v₂).1.2 = none)
    (hsec₂ : a₂.prim.CompareAES (usecase.roleStage a₂ w₂ v₂).1.1.Sec a₂.conf.AESSecret
      v₂.ClientSecret = false) :
    (usecase.Oauth2 a₁ w₁ v₁).1
        = (model.Auth.zero,
            some (errormsg.WrapErr svcerr.AccountSVCNotAuthorized (some err) "role not found"))
      ∧ (usecase.Oauth2 a₂ w₂ v₂).1
        = (model.Auth.zero,
            some (errormsg.WrapErr svcerr.AccountSVCNotAuthorized none
              "invalid client id/client secret"))
      ∧ (errormsg.WrapErr svcerr.AccountSVCNotAuthorized (some err) "role not found").code?
          = some svcerr.CodeNotAuthorized
      ∧ (errormsg.WrapErr svcerr.AccountSVCNotAuthorized none
          "invalid client id/client secret").code? = some svcerr.CodeNotAuthorized
      ∧ (errormsg.WrapErr svcerr.AccountSVCNotAuthorized (some err) "role not found").message?
          = (errormsg.WrapErr svcerr.AccountSVCNotAuthorized none
              "invalid client id/client secret").message?
      ∧ (errormsg.WrapErr svcerr.AccountSVCNotAuthorized none
          "invalid client id/client secret").message?
          = some ⟨401000, 401, "Akses tidak diijinkan! Silakan login kembali!",
              "Access not authorized! Please login again!"⟩ := by
  unfold usecase.roleStage at hrole₁ hrole₂ hsec₂
  refine ⟨?_, ?_, rfl, rfl, rfl, by decide⟩
  · unfold usecase.Oauth2
    simp [hv₁, hrole₁]
  · unfold usecase.Oauth2
    simp [hv₂, hrole₂, hsec₂]

/-- The two failures in the sample deployment: an unknown client id, and the
known client id `c1` with a wrong secret. -/
theorem oauth2_role_failures_indistinguishable_witness :
    sample.loginAnn.Validate = none
      ∧ (model.Login.mk "ann@example.com" "pass1" "c1" "guess").Validate = none
      ∧ (usecase.roleStage (sample.deps [] [sample.accountAnn] []) sample.cold
          sample.loginAnn).1.2
          = some (errormsg.WrapErr svcerr.AccountSVCBadRequest (some GoError.sqlErrNoRows)
              "error get accounts")
      ∧ (usecase.roleStage (sample.deps [sample.roleAdmin] [sample.accountAnn] []) sample.cold
          ⟨"ann@example.com", "pass1", "c1", "guess"⟩).1.2 = none
      ∧ (usecase.Oauth2 (sample.deps [] [sample.accountAnn] []) sample.cold sample.loginAnn).1
          = (model.Auth.zero,
              some (errormsg.WrapErr svcerr.AccountSVCNotAuthorized
                (some (errormsg.WrapErr svcerr.AccountSVCBadRequest (some GoError.sqlErrNoRows)
                  "error get accounts")) "role not found"))
      ∧ (usecase.Oauth2 (sample.deps [sample.roleAdmin] [sample.accountAnn] []) sample.cold
          ⟨"ann@example.com", "pass1", "c1", "guess"⟩).1
          = (model.Auth.zero,
              some (errormsg.WrapErr svcerr.AccountSVCNotAuthorized none
                "invalid client id/client secret")) :=
  have h := oauth2_role_failures_indistinguishable (sample.deps [] [sample.accountAnn] [])
    (sample.deps [sample.roleAdmin] [sample.accountAnn] []) sample.cold sample.cold
    sample.loginAnn ⟨"ann@example.com", "pass1", "c1", "guess"⟩
    (errormsg.WrapErr svcerr.AccountSVCBadRequest (some GoError.sqlErrNoRows) "error get accounts")
    (by decide) (by decide) (by decide) (by decide) (by decide)
  ⟨by decide, by decide, by decide, by decide, h.1, h.2.1⟩

/-- Claim C14.  For a login that passes validation, Role resolution, secret
comparison, Account resolution and membership resolution: when the password
verification against the stored hash fails, `Oauth2` fails with an error of
code `CodeInvalidPasswordNotMatch` (40015), which differs from NotAuthorized
(401000) and from every validation sub-reason code. -/
theorem oauth2_password_mismatch_code (a : usecase.AccountDep) (w : World) (v : model.Login)
    (err : GoError)
    (hv : v.Validate = none)
    (hrole : (usecase.roleStage a w v).1.2 = none)
    (hsec : a.prim.CompareAES (usecase.roleStage a w v).1.1.Sec a.conf.AESSecret v.ClientSecret
      = true)
    (haccount : (usecase.accountStage a w v).1.2 = none)
    (hmember : (usecase.membershipStage a w v).1.2 = none)
    (hpwd : a.prim.Compare (usecase.accountStage a w v).1.1.Password v.Password = some err) :
    (usecase.Oauth2 a w v).1
        = (model.Auth.zero,
            some (errormsg.WrapErr svcerr.AccountSVCInvalidPasswordNotMatch (some err)
              "password not match"))
      ∧ (errormsg.WrapErr svcerr.AccountSVCInvalidPasswordNotMatch (some err)
          "password not match").code? = some svcerr.CodeInvalidPasswordNotMatch
      ∧ svcerr.CodeInvalidPasswordNotMatch ≠ svcerr.CodeNotAuthorized
      ∧ svcerr.CodeInvalidPasswordNotMatch ∉
          [svcerr.CodeInvalidEmptyName, svcerr.CodeInvalidEmptyEmail,
            svcerr.CodeInvalidEmailFormat, svcerr.CodeInvalidEmptyPassword,
            svcerr.CodeInvalidMinimumPassword, svcerr.CodeInvalidMaximumPassword,
            svcerr.CodeInvalidPasswordConfirmation] := by
  unfold usecase.membershipStage at hmember
  unfold usecase.accountStage at haccount hpwd hmember
  unfold usecase.roleStage at hrole hsec haccount hpwd hmember
  refine ⟨?_, rfl, by decide, by decide⟩
  unfold usecase.Oauth2
  simp [hv, hrole, hsec, haccount, hmember, hpwd]

/-- The password mismatch in the sample deployment: every row exists and the
password `wrong` is not the one hashed. -/
theorem oauth2_password_mismatch_code_witness :
    (model.Login.mk "ann@example.com" "wrong" "c1" "s3cr3t").Validate = none
      ∧ sample.prim.Compare "hash:pass1" "wrong"
          = some (GoError.other "hashedPassword is not the hash of the given password")
      ∧ (usecase.Oauth2
          (sample.deps [sample.roleAdmin] [sample.accountAnn] [sample.membership]) sample.cold
          ⟨"ann@example.com", "wrong", "c1", "s3cr3t"⟩).1
          = (model.Auth.zero,
              some (errormsg.WrapErr svcerr.AccountSVCInvalidPasswordNotMatch
                (some (GoError.other "hashedPassword is not the hash of the given password"))
                "password not match")) :=
  ⟨by decide, by decide,
    (oauth2_password_mismatch_code
      (sample.deps [sample.roleAdmin] [sample.accountAnn] [sample.membership]) sample.cold
      ⟨"ann@example.com", "wrong", "c1", "s3cr3t"⟩
      (GoError.other "hashedPassword is not the hash of the given password")
      (by decide) (by decide) (by decide) (by decide) (by decide) (by decide)).1⟩

/-- Claim C15.  When validation, the three resolutions, the secret comparison
and the password verification succeed and the signer returns `t` for the
claims id = the account's identity, username = the account's email, exp = the
Unix time of now + `TokenTimeout` and scope = the resolved role's scope, then
`Oauth2` returns, without error, the Auth with `AccessToken` = `t`, `TokenType`
= "Bearer", `Exp` = now + `TokenTimeout` and `Scope` = the resolved role's
scope. -/
theorem oauth2_success_token (a : usecase.AccountDep) (w : World) (v : model.Login) (t : String)
    (hv : v.Validate = none)
    (hrole : (usecase.roleStage a w v).1.2 = none)
    (hsec : a.prim.CompareAES (usecase.roleStage a w v).1.1.Sec a.conf.AESSecret v.ClientSecret
      = true)
    (haccount : (usecase.accountStage a w v).1.2 = none)
    (hmember : (usecase.membershipStage a w v).1.2 = none)
    (hpwd : a.prim.Compare (usecase.accountStage a w v).1.1.Password v.Password = none)
    (hsign : a.prim.SignedString
        { id := (usecase.accountStage a w v).1.1.ID,
          username := (usecase.accountStage a w v).1.1.Email,
          exp := usecase.Unix (w.now + a.conf.TokenTimeout),
          scope := (usecase.roleStage a w v).1.1.Scope }
        a.conf.TokenSecret = .ok t) :
    (usecase.Oauth2 a w v).1
      = ({ AccessToken := t, TokenType := "Bearer", Exp := some (w.now + a.conf.TokenTimeout),
           Scope := (usecase.roleStage a w v).1.1.Scope }, none) := by
  rw [usecase.Oauth2_of_stages a w v hv hrole hsec haccount hmember hpwd, hsign]
  rfl

/-- The successful login of the sample deployment. -/
theorem oauth2_success_token_witness :
    sample.loginAnn.Validate = none
      ∧ sample.prim.SignedString
          ⟨3, "ann@example.com", usecase.Unix (sample.cold.now + 3600000000000), "admin"⟩ "ts"
          = .ok "jwt:ts:3:ann@example.com:1700003600:admin"
      ∧ (usecase.Oauth2
          (sample.deps [sample.roleAdmin] [sample.accountAnn] [sample.membership]) sample.cold
          sample.loginAnn).1
        = (⟨"jwt:ts:3:ann@example.com:1700003600:admin", "Bearer",
            some (sample.cold.now + 3600000000000), "admin"⟩, none) :=
  ⟨by decide, rfl,
    oauth2_success_token
      (sample.deps [sample.roleAdmin] [sample.accountAnn] [sample.membership]) sample.cold
      sample.loginAnn "jwt:ts:3:ann@example.com:1700003600:admin"
      (by decide) (by decide) (by decide) (by decide) (by decide) (by decide) rfl⟩

/-- Claim C16 as stated, evaluated where it fails.  With effective limit 1 and
the largest int64 as store count the sum `total / limit + 1` does not fit into
an int64: `getByParamPSQL` reports the wrapped value -2^63 as `TotalPages`,
not floor(total / limit) + 1. -/
theorem getByParamPSQL_totalPages_wraps :
    effectiveLimit (sample.roleDepWith ⟨10, 0⟩ (sample.countStore 9223372036854775807 []))
        (sample.rolesPage 1 0) = 1
      ∧ (getByParamPSQL (sample.roleDepWith ⟨10, 0⟩ (sample.countStore 9223372036854775807 []))
          sample.cold (sample.rolesPage 1 0)).1
        = Outcome.ret ([], ⟨1, 0, -9223372036854775808, 9223372036854775807, ""⟩, none)
      ∧ (-9223372036854775808 : Int) ≠ Int.fdiv 9223372036854775807 1 + 1 := by
  refine ⟨?_, ?_, ?_⟩ <;> decide

/-- Claim C16, amended.  When the count query reports `total ≥ 0`, the row
query succeeds, the effective limit is positive and floor(total / limit) + 1
is an int64, `getByParamPSQL` returns, without error, the rows and a
pagination block with `TotalElements` = `total` and `TotalPages` =
floor(total / limit) + 1 when `total > 0`, and 1 when `total = 0`. -/
theorem getByParamPSQL_totalPages {E P : Type} (r : Dep E P) (w : World)
    (param : model.ListParam P) (total : Int) (rows : List E)
    (hcount : r.DB.Count (countQuery r param) = .ok total)
    (hall : r.DB.All (rowQuery r param) = .ok rows)
    (hlimit : 0 < effectiveLimit r param)
    (htotal : 0 ≤ total)
    (hrep : Int.fdiv total (effectiveLimit r param) + 1 < 2 ^ 63) :
    (getByParamPSQL r w param).1
      = Outcome.ret (rows,
          { CurrentPage := (defaulted r param).Page, CurrentElements := rows.length,
            TotalPages := if 0 < total then Int.fdiv total (effectiveLimit r param) + 1 else 1,
            TotalElements := total, SortBy := param.OrderBy.String }, none) := by
  rw [getByParamPSQL_of_store r w param total rows hcount hall]
  have hne : effectiveLimit r param ≠ 0 := by omega
  have hdiv : Int.tdiv total (effectiveLimit r param) = Int.fdiv total (effectiveLimit r param) := by
    rw [Int.tdiv_eq_ediv htotal (by omega), Int.fdiv_eq_ediv _ (by omega)]
  have hnn : 0 ≤ Int.fdiv total (effectiveLimit r param) := by
    rw [Int.fdiv_eq_ediv _ (by omega)]
    exact Int.ediv_nonneg htotal (by omega)
  by_cases ht : 0 < total
  · simp only [ht, hne, if_true, if_false, hdiv]
    rw [wrap64_of_range (Int.fdiv total (effectiveLimit r param)) (by omega) (by omega),
      wrap64_of_range _ (by omega) (by omega)]
  · simp [ht]

/-- The pagination math at limit 10 (the default, none requested) and total 20:
three pages. -/
theorem getByParamPSQL_totalPages_witness :
    (sample.roleDepWith ⟨10, 0⟩ (sample.countStore 20 [])).DB.Count
        (countQuery (sample.roleDepWith ⟨10, 0⟩ (sample.countStore 20 [])) sample.allRoles)
        = .ok 20
      ∧ (0 : Int) < effectiveLimit (sample.roleDepWith ⟨10, 0⟩ (sample.countStore 20 []))
          sample.allRoles
      ∧ (getByParamPSQL (sample.roleDepWith ⟨10, 0⟩ (sample.countStore 20 [])) sample.cold
          sample.allRoles).1
        = Outcome.ret ([], ⟨1, 0, 3, 20, ""⟩, none) :=
  ⟨rfl, by decide,
    getByParamPSQL_totalPages (sample.roleDepWith ⟨10, 0⟩ (sample.countStore 20 [])) sample.cold
      sample.allRoles 20 [] rfl rfl (by decide) (by decide) (by decide)⟩

/-- Claim C17 as stated, evaluated where it fails.  With a requested limit of 1
and the largest int64 as store count, on a store that refuses a negative
`LIMIT`, `getByParamPSQL` returns a pagination block without error whose
`TotalPages` is the wrapped sum -2^63, which is below 1. -/
theorem getByParamPSQL_totalPages_below_one :
    (getByParamPSQL (sample.roleDepWith ⟨10, 0⟩ (sample.checkedStore 9223372036854775807 []))
        sample.cold (sample.rolesPage 1 1)).1
        = Outcome.ret ([], ⟨1, 0, -9223372036854775808, 9223372036854775807, ""⟩, none)
      ∧ (0 : Int) ≤ 9223372036854775807
      ∧ ¬ ((1 : Int) ≤ -9223372036854775808) := by
  refine ⟨?_, ?_, ?_⟩ <;> decide

/-- Claim C17, amended.  On a store that refuses a row query with a negative
`LIMIT`: for every list request and every store count `total` such that
floor(total / limit) + 1 is an int64 (limit being the effective limit; for
`total ≥ 0` this excludes only the largest int64 with limit 1), whenever
`getByParamPSQL` returns a pagination block without error its `TotalPages` is
at least 1. -/
theorem getByParamPSQL_totalPages_pos {E P : Type} (r : Dep E P) (w : World)
    (param : model.ListParam P) (total : Int) (rows : List E) (pg : model.Pagination)
    (hstore : ∀ (q : List QueryMod) (n : Int), QueryMod.Limit n ∈ q → n < 0 →
      ∃ err, r.DB.All q = .error err)
    (hcount : r.DB.Count (countQuery r param) = .ok total)
    (hrep : Int.fdiv total (effectiveLimit r param) + 1 < 2 ^ 63)
    (hret : (getByParamPSQL r w param).1 = Outcome.ret (rows, pg, none)) :
    1 ≤ pg.TotalPages := by
  rcases ha : r.DB.All (rowQuery r param) with err | accounts
  · rw [getByParamPSQL_eq] at hret
    simp [hcount, ha] at hret
  · have hnonneg : 0 ≤ effectiveLimit r param := by
      by_contra hneg
      have hmem : QueryMod.Limit (effectiveLimit r param) ∈ rowQuery r param := by
        unfold rowQuery
        rw [defaulted_Limit]
        simp
      obtain ⟨err, herr⟩ := hstore (rowQuery r param) (effectiveLimit r param) hmem (by omega)
      rw [herr] at ha
      cases ha
    rw [getByParamPSQL_of_store r w param total accounts hcount ha] at hret
    by_cases ht : 0 < total
    · by_cases hz : effectiveLimit r param = 0
      · simp [ht, hz] at hret
      · simp only [ht, hz, if_true, if_false] at hret
        injection hret with hret
        injection hret with _ hret
        injection hret with hpg _
        subst hpg
        simp only
        have hdiv : Int.tdiv total (effectiveLimit r param)
            = Int.fdiv total (effectiveLimit r param) := by
          rw [Int.tdiv_eq_ediv (by omega) (by omega), Int.fdiv_eq_ediv _ (by omega)]
        have hnn : 0 ≤ Int.fdiv total (effectiveLimit r param) := by
          rw [Int.fdiv_eq_ediv _ (by omega)]
          exact Int.ediv_nonneg (by omega) (by omega)
        rw [hdiv,
          wrap64_of_range (Int.fdiv total (effectiveLimit r param)) (by omega) (by omega),
          wrap64_of_range _ (by omega) (by omega)]
        omega
    · simp only [ht, if_false] at hret
      injection hret with hret
      injection hret with _ hret
      injection hret with hpg _
      subst hpg
      simp

/-- The lower bound at requested limit 10, page 2 and a store count of 25, on a
store that refuses a negative `LIMIT`; on that store the requested limit -1
gives an error and no pagination block. -/
theorem getByParamPSQL_totalPages_pos_witness :
    (getByParamPSQL (sample.roleDepWith ⟨0, 0⟩ (sample.checkedStore 25 [])) sample.cold
        (sample.rolesPage 10 2)).1
        = Outcome.ret ([], ⟨2, 0, 3, 25, ""⟩, none)
      ∧ (1 : Int) ≤ (model.Pagination.mk 2 0 3 25 "").TotalPages
      ∧ (getByParamPSQL (sample.roleDepWith ⟨0, 0⟩ (sample.checkedStore 25 [])) sample.cold
          (sample.rolesPage (-1) 2)).1
        = Outcome.ret ([], model.Pagination.zero,
            some (errormsg.WrapErr svcerr.AccountSVCBadRequest
              (some (GoError.other "pq: LIMIT must not be negative")) "error get accounts")) :=
  ⟨by decide,
    getByParamPSQL_totalPages_pos (sample.roleDepWith ⟨0, 0⟩ (sample.checkedStore 25 []))
      sample.cold (sample.rolesPage 10 2) 25 [] ⟨2, 0, 3, 25, ""⟩
      (fun q n hmem hneg =>
        ⟨GoError.other "pq: LIMIT must not be negative",
          if_pos (List.any_eq_true.mpr ⟨QueryMod.Limit n, hmem, decide_eq_true hneg⟩)⟩)
      rfl (by decide) (by decide),
    by decide⟩

/-- Claim C18, evaluated where it fails.  No limit is requested and the
configured default page limit is 0: the limit stays 0 after defaulting, the
count (one Role) and the row query succeed, and the division `count /
param.Limit` panics; `GetByParam` does not recover it. -/
theorem getByParamPSQL_zero_default_limit_panics :
    effectiveLimit (sample.roleDepWith ⟨0, 0⟩ (sample.memStore [sample.roleAdmin]
        sample.roleColumn)) sample.allRoles = 0
      ∧ (getByParamPSQL
          (sample.roleDepWith ⟨0, 0⟩ (sample.memStore [sample.roleAdmin] sample.roleColumn))
          sample.cold sample.allRoles).1
        = Outcome.panic "runtime error: integer divide by zero"
      ∧ (GetByParam
          (sample.roleDepWith ⟨0, 0⟩ (sample.memStore [sample.roleAdmin] sample.roleColumn))
          sample.cold "" sample.allRoles).1
        = Outcome.panic "runtime error: integer divide by zero" := by
  refine ⟨?_, ?_, ?_⟩ <;> decide

/-- Claim C19.  For every key and value `setRedis` issues the delete of the key
first; when that delete fails, nothing else is issued and its error is
returned; otherwise the set of the key follows, with the configured
expiration as time-to-live when that is non-zero and five minutes when it is
zero, and the outcome of the set is returned. -/
theorem setRedis_delete_then_set {E P : Type} (r : Dep E P) (w : World) (key data : String) :
    (∀ err, w.nextFault = some err →
        setRedis r w key data = (some err, w.issued (Event.redisDel key)))
      ∧ (w.nextFault = none →
          (setRedis r w key data).2.trace
            = w.trace ++ [Event.redisDel key,
                Event.redisSet key data
                  (if r.Conf.RedisExpirationTime = 0 then 5 * 60 * 1000000000
                    else r.Conf.RedisExpirationTime)]
          ∧ setRedis r w key data
            = Redis.Set (Redis.Del w key).2 key data
                (if r.Conf.RedisExpirationTime = 0 then 5 * 60 * 1000000000
                  else r.Conf.RedisExpirationTime))
      ∧ model.DefaultRedisExpiration = 5 * 60 * 1000000000 := by
  refine ⟨?_, ?_, rfl⟩
  · intro err h
    unfold setRedis Redis.Del
    simp [h]
  · intro h
    unfold setRedis Redis.Del Redis.Set
    simp only [h]
    refine ⟨?_, ?_⟩
    · simp only [World.issued, model.DefaultRedisExpiration]
      split <;> simp
    · simp [World.issued, model.DefaultRedisExpiration]

/-- Claim C20, evaluated where it fails.  When the transaction begins and the
statement succeeds but the commit fails, `insertPSQL`, `updatePSQL` and
`deletePSQL` (hard and soft) return the commit error wrapped with
`AccountSVCBadRequest`: the error carries the generic BadRequest code 40000,
which is none of the store error codes. -/
theorem psql_commit_failure_is_bad_request :
    (insertPSQL sample.commitFails sample.roleAdmin).1
        = some (errormsg.WrapErr svcerr.AccountSVCBadRequest
            (some (GoError.other "commit failed")) "error commit")
      ∧ (updatePSQL sample.commitFails sample.roleAdmin).1
        = some (errormsg.WrapErr svcerr.AccountSVCBadRequest
            (some (GoError.other "commit failed")) "error commit")
      ∧ (deletePSQL sample.commitFails psqlmodel.Role.withDeletedBy sample.roleAdmin 9 true).1
        = some (errormsg.WrapErr svcerr.AccountSVCBadRequest
            (some (GoError.other "commit failed")) "error commit")
      ∧ (deletePSQL sample.commitFails psqlmodel.Role.withDeletedBy sample.roleAdmin 9 false).1
        = some (errormsg.WrapErr svcerr.AccountSVCBadRequest
            (some (GoError.other "commit failed")) "error commit")
      ∧ (errormsg.WrapErr svcerr.AccountSVCBadRequest (some (GoError.other "commit failed"))
          "error commit").code? = some svcerr.CodeBadRequest
      ∧ svcerr.CodeBadRequest ∉
          [svcerr.CodePSQLErrorTransaction, svcerr.CodePSQLErrorCommit,
            svcerr.CodePSQLErrorRollback, svcerr.CodePSQLErrorInsert, svcerr.CodePSQLErrorUpdate,
            svcerr.CodePSQLErrorDelete] := by
  refine ⟨?_, ?_, ?_, ?_, ?_, ?_⟩ <;> decide

/-- Claim C21.  When the transaction begins, `insertPSQL`, `updatePSQL` and
`deletePSQL` invoke exactly one of `Rollback` and `Commit` before they return;
it is `Rollback` whenever a statement failed (the insert, the update, the
delete, or the update of a soft delete), and `Commit` when the statements
succeeded. -/
theorem psql_transaction_ends_exactly_once (db : TxStore E) (withDeletedBy : E → NullInt → E)
    (data : E) (id : Int) (isHardDelete : Bool) (hbegin : db.BeginTx = none) :
    ((insertPSQL db data).2.filter TxEvent.isEnd).length = 1
      ∧ ((updatePSQL db data).2.filter TxEvent.isEnd).length = 1
      ∧ ((deletePSQL db withDeletedBy data id isHardDelete).2.filter TxEvent.isEnd).length = 1
      ∧ (db.Insert data ≠ none →
          (insertPSQL db data).2.filter TxEvent.isEnd = [TxEvent.rollback])
      ∧ (db.Update data ≠ none →
          (updatePSQL db data).2.filter TxEvent.isEnd = [TxEvent.rollback])
      ∧ (db.Delete data isHardDelete ≠ none →
          (deletePSQL db withDeletedBy data id isHardDelete).2.filter TxEvent.isEnd
            = [TxEvent.rollback])
      ∧ (isHardDelete = false → db.Update (withDeletedBy data (NewInt id true)) ≠ none →
          (deletePSQL db withDeletedBy data id isHardDelete).2.filter TxEvent.isEnd
            = [TxEvent.rollback])
      ∧ (db.Insert data = none →
          (insertPSQL db data).2.filter TxEvent.isEnd = [TxEvent.commit])
      ∧ (db.Update data = none →
          (updatePSQL db data).2.filter TxEvent.isEnd = [TxEvent.commit]) := by
  refine ⟨?_, ?_, ?_, ?_, ?_, ?_, ?_, ?_, ?_⟩
  · unfold insertPSQL
    simp only [hbegin]
    cases db.Insert data <;> cases db.Rollback <;> cases db.Commit <;>
      simp [TxEvent.isEnd, List.filter]
  · unfold updatePSQL
    simp only [hbegin]
    cases db.Update data <;> cases db.Rollback <;> cases db.Commit <;>
      simp [TxEvent.isEnd, List.filter]
  · unfold deletePSQL
    simp only [hbegin]
    cases isHardDelete <;> cases db.Delete data _ <;>
      cases db.Update (withDeletedBy data (NewInt id true)) <;> cases db.Rollback <;>
      cases db.Commit <;> simp [TxEvent.isEnd, List.filter]
  · intro h
    unfold insertPSQL
    simp only [hbegin]
    cases hi : db.Insert data <;> cases db.Rollback <;> simp_all [TxEvent.isEnd, List.filter]
  · intro h
    unfold updatePSQL
    simp only [hbegin]
    cases hi : db.Update data <;> cases db.Rollback <;> simp_all [TxEvent.isEnd, List.filter]
  · intro h
    unfold deletePSQL
    simp only [hbegin]
    cases hi : db.Delete data isHardDelete <;> cases db.Rollback <;>
      simp_all [TxEvent.isEnd, List.filter]
  · intro hs h
    subst hs
    unfold deletePSQL
    simp only [hbegin]
    cases db.Delete data false <;>
      cases hi : db.Update (withDeletedBy data (NewInt id true)) <;> cases db.Rollback <;>
      simp_all [TxEvent.isEnd, List.filter]
  · intro h
    unfold insertPSQL
    simp only [hbegin, h]
    cases db.Commit <;> simp [TxEvent.isEnd, List.filter]
  · intro h
    unfold updatePSQL
    simp only [hbegin, h]
    cases db.Commit <;> simp [TxEvent.isEnd, List.filter]

/-- Witness for C21: on a write side whose statements fail, the insert of a Role
ends with one rollback. -/
theorem psql_transaction_ends_exactly_once_witness :
    (sample.statementsFail : TxStore psqlmodel.Role).BeginTx = none
      ∧ ((insertPSQL sample.statementsFail sample.roleAdmin).2.filter TxEvent.isEnd).length = 1
      ∧ (insertPSQL sample.statementsFail sample.roleAdmin).2.filter TxEvent.isEnd
          = [TxEvent.rollback] :=
  ⟨rfl,
    (psql_transaction_ends_exactly_once sample.statementsFail psqlmodel.Role.withDeletedBy
      sample.roleAdmin 3 false rfl).1,
    (psql_transaction_ends_exactly_once sample.statementsFail psqlmodel.Role.withDeletedBy
      sample.roleAdmin 3 false rfl).2.2.2.1 (by decide)⟩

/-- Claim C23, where it fails: the two failures carry the same code.  Whatever error
the store lookup returns, `sql.ErrNoRows` or any other, `getSingleByParamPSQL`
wraps it with `AccountSVCBadRequest` and the text "error get accounts": the code
reported is `CodeBadRequest` in both cases. -/
theorem getSingleByParamPSQL_not_found_same_code (r : Dep E P) (w : World) (param : P)
    (err : GoError) (hfail : r.DB.One (r.GetQuery param) = .error err) :
    (getSingleByParamPSQL r w param).1.2
        = some (errormsg.WrapErr svcerr.AccountSVCBadRequest (some err) "error get accounts")
      ∧ (getSingleByParamPSQL r w param).1.2.bind GoError.code? = some svcerr.CodeBadRequest := by
  unfold getSingleByParamPSQL
  simp only [hfail]
  split <;> exact ⟨rfl, rfl⟩

/-- Witness for C23: a lookup in an empty Role table and a lookup in a store that
is down both report code 40000, which is neither `CodeNotFound` nor
`CodePSQLErrorGet`. -/
theorem getSingleByParamPSQL_not_found_same_code_witness :
    (sample.roleDep []).DB.One ((sample.roleDep []).GetQuery sample.byCid)
        = .error GoError.sqlErrNoRows
      ∧ (getSingleByParamPSQL (sample.roleDep []) sample.cold sample.byCid).1.2.bind
          GoError.code? = some 40000
      ∧ (getSingleByParamPSQL (sample.roleDepWith ⟨10, 0⟩ sample.downStore) sample.cold
          sample.byCid).1.2.bind GoError.code? = some 40000
      ∧ svcerr.CodeNotFound = 404000
      ∧ svcerr.CodePSQLErrorGet = 40007 :=
  ⟨rfl,
    (getSingleByParamPSQL_not_found_same_code (sample.roleDep []) sample.cold sample.byCid
      GoError.sqlErrNoRows rfl).2,
    (getSingleByParamPSQL_not_found_same_code (sample.roleDepWith ⟨10, 0⟩ sample.downStore)
      sample.cold sample.byCid (GoError.other "connection refused") rfl).2,
    rfl, rfl⟩

/-- Claim C24.  For two of the nine key formats and two serialized filters: if
the formats differ the keys differ, and under one format distinct filters give
distinct keys. -/
theorem cache_keys_never_collide (f1 f2 : String) (h1 : f1 ∈ model.KeyFormats)
    (h2 : f2 ∈ model.KeyFormats) (s1 s2 : String) :
    (f1 ≠ f2 → Sprintf f1 s1 ≠ Sprintf f2 s2)
      ∧ (s1 ≠ s2 → Sprintf f1 s1 ≠ Sprintf f1 s2) :=
  ⟨fun hne h => hne (Sprintf_keyFormats_injective f1 f2 h1 h2 s1 s2 h).1,
    fun hne h => hne (Sprintf_keyFormats_injective f1 f1 h1 h1 s1 s2 h).2⟩

/-- Witness for C24: the single-get and the list-get key of the Role repository
for one serialized filter differ, there are nine formats and they are pairwise
distinct. -/
theorem cache_keys_never_collide_witness :
    model.KeyFormats.length = 9 ∧ model.KeyFormats.Nodup
      ∧ model.GetSingleByParamRoleKey ∈ model.KeyFormats
      ∧ model.GetByParamRoleKey ∈ model.KeyFormats
      ∧ Sprintf model.GetSingleByParamRoleKey "cid=c1" ≠ Sprintf model.GetByParamRoleKey "cid=c1" :=
  ⟨by decide, by decide, by decide, by decide,
    (cache_keys_never_collide model.GetSingleByParamRoleKey model.GetByParamRoleKey
      (by decide) (by decide) "cid=c1" "cid=c1").1 (by decide)⟩

/-- Claim C25.  The twenty code constants of svcerr (eighteen from 40000 to
40017, then 401000 and 404000) are pairwise distinct; each has an entry in
`ErrMsg` whose `Code` is its key and whose Indonesian message and English
translation are non-empty; the twenty `AccountSVC*` values carry exactly these
codes and none is the zero message. -/
theorem svcerr_codes_distinct_and_described :
    svcerr.Codes.length = 20
      ∧ svcerr.Codes.Nodup
      ∧ (svcerr.Codes.filter (fun c => decide (40000 ≤ c ∧ c < 40018))).length = 18
      ∧ svcerr.CodeNotAuthorized = 401000 ∧ svcerr.CodeNotFound = 404000
      ∧ (∀ c ∈ svcerr.Codes, ∃ m, svcerr.ErrMsgEntries.lookup c = some m ∧ m.Code = c
          ∧ m.Message ≠ "" ∧ m.TranslationEN ≠ "")
      ∧ svcerr.Values.length = 20
      ∧ List.Perm (svcerr.Values.map (fun m => m.Code)) svcerr.Codes
      ∧ ∀ v ∈ svcerr.Values, v ≠ ⟨0, 0, "", ""⟩ := by
  refine ⟨by decide, by decide, by decide, rfl, rfl, ?_, by decide, by decide, by decide⟩
  intro c hc
  simp only [svcerr.Codes, List.mem_cons, List.mem_singleton, List.not_mem_nil, or_false] at hc
  rcases hc with h | h | h | h | h | h | h | h | h | h | h | h | h | h | h | h | h | h | h | h <;>
    subst h <;> exact ⟨_, rfl, by decide⟩

/-- Claim C26, evaluated where it fails: the length is counted in bytes.  The password "ééé" has
three characters and six bytes and passes the length checks of `Login.Validate`,
`Register.Validate` and `UpdatePasswordData.IsValid`; the password "ééééé" has
five characters and ten bytes and is rejected by all three with the
maximum-password error. -/
theorem password_length_counted_in_bytes :
    "ééé".length = 3 ∧ "ééé".utf8ByteSize = 6
      ∧ model.Login.Validate ⟨"ann@example.com", "ééé", "c1", "s"⟩ = none
      ∧ model.Register.Validate ⟨"Ann", "ann@example.com", "ééé", "ééé", 0⟩ = none
      ∧ model.UpdatePasswordData.IsValid ⟨"ééé", "ééé", 0⟩ = none
      ∧ "ééééé".length = 5 ∧ "ééééé".utf8ByteSize = 10
      ∧ model.Login.Validate ⟨"ann@example.com", "ééééé", "c1", "s"⟩
          = some (errormsg.WrapErr svcerr.AccountSVCInvalidMaximumPassword none
              "invalid maximum password")
      ∧ model.Register.Validate ⟨"Ann", "ann@example.com", "ééééé", "ééééé", 0⟩
          = some (errormsg.WrapErr svcerr.AccountSVCInvalidMaximumPassword none
              "invalid maximum password")
      ∧ model.UpdatePasswordData.IsValid ⟨"ééééé", "ééééé", 0⟩
          = some (errormsg.WrapErr svcerr.AccountSVCInvalidMaximumPassword none
              "invalid maximum password") := by
  decide

/-- Claim C27, evaluated where it fails: the `ID` field is ignored.  The query of a
`GetAccountRoleByParam` filter does not depend on its `ID`; the filter with only
`ID` valid gives the empty query, where the Account and the Role filter with
only `ID` valid give the condition `id=?`. -/
theorem getAccountRoleByParam_query_ignores_id :
    (∀ g : model.GetAccountRoleByParam,
        model.GetAccountRoleByParam.GetQuery g
          = model.GetAccountRoleByParam.GetQuery { g with ID := ⟨0, false⟩ })
      ∧ model.GetAccountRoleByParam.GetQuery ⟨NewInt64 5 true, ⟨0, false⟩, ⟨0, false⟩⟩ = []
      ∧ model.GetAccountByParam.GetQuery ⟨NewInt64 5 true, ⟨"", false⟩, ⟨"", false⟩⟩
          = [QueryMod.Where "id=?" (.int 5)]
      ∧ model.GetRoleByParam.GetQuery ⟨NewInt64 5 true, ⟨"", false⟩, ⟨"", false⟩⟩
          = [QueryMod.Where "id=?" (.int 5)] := by
  refine ⟨fun g => rfl, by decide, by decide, by decide⟩

/-- Claim C28.  For a request whose path id parses and whose body decodes: when
the caller's scope is not "sup", `UpdateByID` and `DeleteByID` call the use case
with the caller's id as target, whatever the path id; when the scope is "sup"
the target is the path id; in both cases `UpdateBy` and the deleting actor are
the caller's id.  The use case `DeleteByID` looks the target up and deletes it
with the actor as the deleting actor. -/
theorem handler_target_is_caller_unless_super_admin (a : handler.AccountDep)
    (caller : handler.Caller) (text : String) (data : model.UpdateAccountData)
    (pathId otherId : Int) (hbody : a.unmarshalUpdate text = .ok data) :
    (caller.scope ≠ model.SuperAdminScope →
        handler.UpdateByID a ⟨.ok pathId, .ok text, caller⟩
            = .call (caller.id, { data with UpdateBy := caller.id })
          ∧ handler.UpdateByID a ⟨.ok otherId, .ok text, caller⟩
            = handler.UpdateByID a ⟨.ok pathId, .ok text, caller⟩
          ∧ handler.DeleteByID a ⟨.ok pathId, .ok text, caller⟩
            = .call (caller.id, false, caller.id)
          ∧ handler.DeleteByID a ⟨.ok otherId, .ok text, caller⟩
            = handler.DeleteByID a ⟨.ok pathId, .ok text, caller⟩)
      ∧ (caller.scope = model.SuperAdminScope →
        handler.UpdateByID a ⟨.ok pathId, .ok text, caller⟩
            = .call (pathId, { data with UpdateBy := caller.id })
          ∧ handler.DeleteByID a ⟨.ok pathId, .ok text, caller⟩
            = .call (caller.id, false, pathId))
      ∧ (∀ (u : usecase.AccountDep) (tx : TxStore psqlmodel.Account) (w w1 : World)
          (target : Int) (account : psqlmodel.Account),
          GetSingleByParam u.account w model.MustRevalidate
              { ID := NewInt64 target true, Email := ⟨"", false⟩, Name := ⟨"", false⟩ }
            = ((account, none), w1) →
          usecase.DeleteByID u tx w caller.id false target
            = (deletePSQL tx psqlmodel.Account.withDeletedBy account caller.id false, w1)) := by
  refine ⟨?_, ?_, ?_⟩
  · intro hs
    simp [handler.UpdateByID, handler.DeleteByID, hbody, hs]
  · intro hs
    simp [handler.UpdateByID, handler.DeleteByID, hbody, hs]
  · intro u tx w w1 target account h
    exact usecase.DeleteByID_of_lookup u tx w w1 caller.id target false account h

/-- Witness for C28: caller 3 with scope "cus" naming account 9 in the path acts
on account 3; with scope "sup" the update acts on account 9. -/
theorem handler_target_is_caller_unless_super_admin_witness :
    sample.handlerDep.unmarshalUpdate "Ann" = .ok ⟨"Ann", 0⟩
      ∧ handler.UpdateByID sample.handlerDep ⟨.ok 9, .ok "Ann", ⟨3, "cus"⟩⟩
        = .call (3, ⟨"Ann", 3⟩)
      ∧ handler.DeleteByID sample.handlerDep ⟨.ok 9, .ok "Ann", ⟨3, "cus"⟩⟩
        = .call (3, false, 3)
      ∧ handler.UpdateByID sample.handlerDep ⟨.ok 9, .ok "Ann", ⟨3, "sup"⟩⟩
        = .call (9, ⟨"Ann", 3⟩) :=
  ⟨rfl,
    ((handler_target_is_caller_unless_super_admin sample.handlerDep ⟨3, "cus"⟩ "Ann"
      ⟨"Ann", 0⟩ 9 4 rfl).1 (by decide)).1,
    ((handler_target_is_caller_unless_super_admin sample.handlerDep ⟨3, "cus"⟩ "Ann"
      ⟨"Ann", 0⟩ 9 4 rfl).1 (by decide)).2.2.1,
    ((handler_target_is_caller_unless_super_admin sample.handlerDep ⟨3, "sup"⟩ "Ann"
      ⟨"Ann", 0⟩ 9 4 rfl).2.1 rfl).1⟩

/-- Claim C29.  `Register.Validate` returns no error exactly when the name is
non-empty, the password is non-empty, its length (`len`, in bytes) is between 5
and 8, and it equals the confirmation; the result is the same for every email,
also for one that `Login.Validate` rejects. -/
theorem register_validate_characterised (r : model.Register) :
    (r.Validate = none ↔
        r.Name ≠ "" ∧ r.Password ≠ "" ∧ 5 ≤ r.Password.utf8ByteSize
          ∧ r.Password.utf8ByteSize ≤ 8 ∧ r.Password = r.ConfirmPassword)
      ∧ (∀ email : String, model.Register.Validate { r with Email := email } = r.Validate)
      ∧ (∀ email : String, model.Login.Validate ⟨email, r.Password, "", ""⟩ ≠ none →
          model.Register.Validate { r with Email := email } = r.Validate) := by
  refine ⟨?_, fun _ => rfl, fun _ _ => rfl⟩
  unfold model.Register.Validate
  constructor
  · intro h
    split_ifs at h with h1 h2 h3 h4 h5
    exact ⟨h1, h2, by omega, by omega, by simpa using h5⟩
  · rintro ⟨h1, h2, h3, h4, h5⟩
    rw [if_neg h1, if_neg h2, if_neg (by omega), if_neg (by omega), if_neg (by simp [h5])]

/-- Claim C30, evaluated where it fails, a secret containing a colon.  "YzE6YTpi" is the
base64 encoding of "c1:a:b", the id "c1" followed by the secret "a:b";
`decodeClient` on "Basic YzE6YTpi" returns the pair ("c1", "a").  For the secret
"s3cr3t" it returns ("c1", "s3cr3t"); for a value with no space, and for a
payload with no colon, it returns the pair of empty strings. -/
theorem decodeClient_truncates_secret_at_colon :
    sample.decodeBase64 "YzE6YTpi" = ("c1:a:b", none)
      ∧ handler.decodeClient sample.handlerDep "Basic YzE6YTpi" = (("c1", "a"), [])
      ∧ handler.decodeClient sample.handlerDep "Basic YzE6czNjcjN0" = (("c1", "s3cr3t"), [])
      ∧ handler.decodeClient sample.handlerDep "BasicYzE6czNjcjN0" = (("", ""), [])
      ∧ handler.decodeClient sample.handlerDep "Basic YzFzM2NyM3Q=" = (("", ""), []) := by
  decide

end Claims

end AccountSvc
